import Mathlib

/-!
Shallow embedding of the voyana travel-concierge search-and-rank pipeline
(`backend/app`), together with proofs about its behaviour.

Modelling conventions:
* Python `float` money/score values are modelled as `ℚ` (the source only adds,
  multiplies, divides and compares them).
* Python `int` fields are `Int` (traveler counts, validated non-negative by
  pydantic, are `Nat`).
* `datetime`/`date` values are modelled as integer timestamps; the pipeline
  never computes with them.  The `last_updated` metadata field (wall-clock
  `datetime.now()`) is omitted.
* `Optional[X]` is `Option X`; Python truthiness of optional strings, numbers
  and lists is made explicit through the `truthy*`/`pyOr*` helpers.
* Network calls (LLM intent extraction, flight/hotel providers) are passed in
  as oracle arguments of type `Except String α`: `.error e` models the call
  raising an exception with message `e`, `.ok v` a normal return.
* `random` draws inside the mock-hotel generator are supplied by an oracle
  function argument, and rounding to two decimals is modelled half-up.
* Python `list.sort`/`sorted` (a stable sort) is modelled by the stable
  insertion sort `stableSort`.
-/

namespace Voyana

/-- Travel style enumeration (`app/models/travel.py`, `TravelStyle`). -/
inductive TravelStyle
  | relaxed
  | balanced
  | packed
  | adventure
  | luxury
  | budget
  deriving DecidableEq

/-- The `.value` string of a `TravelStyle` member. -/
def TravelStyle.value : TravelStyle → String
  | .relaxed => "relaxed"
  | .balanced => "balanced"
  | .packed => "packed"
  | .adventure => "adventure"
  | .luxury => "luxury"
  | .budget => "budget"

/-- Individual traveler (`app/models/travel.py`, `Traveler`). -/
structure Traveler where
  type : String
  age : Option Int
  name : Option String
  deriving DecidableEq

/-- Structured travel request (`app/models/travel.py`, `TravelIntent`). -/
structure TravelIntent where
  origin : Option String
  destination : Option String
  destination_description : Option String
  destination_image_url : Option String
  departure_date : Option Int
  return_date : Option Int
  duration_days : Option Int
  date_flexibility : Int
  travelers : List Traveler
  num_adults : Nat
  num_children : Nat
  num_infants : Nat
  total_budget : Option ℚ
  budget_flexibility : ℚ
  budget_priorities : List String
  travel_style : TravelStyle
  accommodation_type : List String
  must_haves : List String
  must_not_haves : List String
  interests : List String
  special_occasions : List String
  mobility_requirements : Option String
  dietary_restrictions : List String
  deriving DecidableEq

/-- Single flight leg (`app/models/travel.py`, `FlightSegment`). -/
structure FlightSegment where
  origin : String
  destination : String
  departure : Int
  arrival : Int
  carrier : String
  flight_number : String
  duration_minutes : Int
  aircraft : Option String
  booking_class : String
  deriving DecidableEq

/-- Complete flight option (`app/models/travel.py`, `FlightOption`). -/
structure FlightOption where
  outbound_segments : List FlightSegment
  return_segments : List FlightSegment
  total_price : ℚ
  currency : String
  total_duration_minutes : Int
  number_of_stops : Int
  booking_link : Option String
  source : String
  deriving DecidableEq

/-- Hotel or accommodation option (`app/models/travel.py`, `AccommodationOption`). -/
structure AccommodationOption where
  name : String
  type : String
  address : String
  city : String
  country : String
  price_per_night : ℚ
  total_price : ℚ
  currency : String
  rating : Option ℚ
  review_count : Option Int
  amenities : List String
  room_type : Option String
  check_in : Int
  check_out : Int
  latitude : Option ℚ
  longitude : Option ℚ
  distance_to_center_km : Option ℚ
  booking_link : Option String
  source : String
  deriving DecidableEq

/-- Single day of an itinerary (`app/models/travel.py`, `DayPlan`); the core
synthesizer always leaves the day-plan list empty, so activities and meals are
not modelled. -/
structure DayPlan where
  day_number : Int
  date : Option Int
  location : String
  estimated_cost : ℚ
  deriving DecidableEq

/-- Complete itinerary (`app/models/travel.py`, `Itinerary`). -/
structure Itinerary where
  title : String
  summary : String
  style_tag : String
  flights : FlightOption
  accommodations : List AccommodationOption
  daily_plans : List DayPlan
  flight_cost : ℚ
  accommodation_cost : ℚ
  activities_cost : ℚ
  estimated_food_cost : ℚ
  total_cost : ℚ
  currency : String
  why_this_option : String
  tradeoffs : String
  taste_score : Option ℚ
  deriving DecidableEq

/-- Taste profile dictionary built by `TasteProfilerAgent._create_default_profile`
(`app/agents/taste_profiler.py`); the Python `Dict[str, Any]` always carries
exactly these keys. -/
structure TasteProfile where
  preferred_styles : List String
  budget_consciousness : String
  time_sensitivity : String
  comfort_level : String
  accommodation_preferences : List String
  interests : List String
  past_destinations : List String
  preferred_airlines : List String
  preferred_hotel_chains : List String
  family_friendly : Bool
  deriving DecidableEq

/-- LangGraph state object (`app/models/travel.py`, `AgentState`).  The
`activity_options` and `past_trips` fields are never written or read by the
pipeline and are omitted. -/
structure AgentState where
  user_message : String
  user_id : Option String
  conversation_id : Option String
  parsed_intent : Option TravelIntent
  flight_options : List FlightOption
  accommodation_options : List AccommodationOption
  user_taste_profile : Option TasteProfile
  itineraries : List Itinerary
  agent_messages : List String
  current_step : String
  errors : List String
  deriving DecidableEq

/-- Python `s.lower()`, modelled on the character list so that concrete
instances evaluate in the kernel. -/
def pyLower (s : String) : String := ⟨s.data.map Char.toLower⟩

/-- Python `s.upper()`, modelled on the character list. -/
def pyUpper (s : String) : String := ⟨s.data.map Char.toUpper⟩

/-- Python `s.strip()`, modelled on the character list. -/
def pyStrip (s : String) : String :=
  ⟨((s.data.dropWhile Char.isWhitespace).reverse.dropWhile Char.isWhitespace).reverse⟩

/-- Python truthiness of an optional string (`None` and `""` are falsy). -/
def truthyStr : Option String → Bool
  | none => false
  | some s => s != ""

/-- Python truthiness of an optional number (`None` and `0` are falsy). -/
def truthyQ : Option ℚ → Bool
  | none => false
  | some q => q != 0

/-- Python truthiness of an optional integer (`None` and `0` are falsy). -/
def truthyInt : Option Int → Bool
  | none => false
  | some n => n != 0

/-- Python `x or d` for an optional integer `x` (used for `duration_days or 7`). -/
def pyOrInt (o : Option Int) (d : Int) : Int :=
  match o with
  | none => d
  | some n => if n = 0 then d else n

/-- Python `x or d` for a list `x` (empty lists are falsy). -/
def pyOrList {α : Type} (l d : List α) : List α :=
  if l.isEmpty then d else l

/-- Python `str(x)` of an optional string (`None` prints as `"None"`). -/
def pyStr : Option String → String
  | none => "None"
  | some s => s

/-- Python `max(...)` over a non-empty numeric list; the pipeline only applies
it to non-empty pools, the `[]` case is an arbitrary total-function default. -/
def pyMax (l : List ℚ) : ℚ :=
  match l with
  | [] => 0
  | x :: xs => xs.foldl max x

/-- Stable insertion of `x` into `acc`: an existing element `y` stays in front
of the new element `x` exactly when `keep y x` holds. -/
def insertStable {α : Type} (keep : α → α → Bool) (x : α) : List α → List α
  | [] => [x]
  | y :: ys => if keep y x then y :: insertStable keep x ys else x :: y :: ys

/-- Stable sort (model of Python `list.sort` / `sorted`): elements are
inserted in their original order, so elements that compare equal keep their
relative order. -/
def stableSort {α : Type} (keep : α → α → Bool) (l : List α) : List α :=
  l.foldl (fun acc x => insertStable keep x acc) []

/-- Python `sorted(l, key=key)` (ascending, stable). -/
def sortAscBy {α κ : Type} [LinearOrder κ] (key : α → κ) (l : List α) : List α :=
  stableSort (fun a b => decide (key a ≤ key b)) l

/-- Python `sorted(l, key=key, reverse=True)` (descending, stable). -/
def sortDescBy {α κ : Type} [LinearOrder κ] (key : α → κ) (l : List α) : List α :=
  stableSort (fun a b => decide (key b ≤ key a)) l

/-- Flight score from `SearchOrchestratorAgent._optimize_flights.score_flight`
(`app/agents/search_orchestrator.py`): weighted sum of normalized price,
duration and stops components.  Note the stops component `1 - stops / 3` is
not clamped at zero in the source. -/
def score_flight (flights : List FlightOption) (flight : FlightOption) : ℚ :=
  let price_score : ℚ := 1 - flight.total_price / pyMax (flights.map (fun f => f.total_price))
  let duration_score : ℚ :=
    1 - (flight.total_duration_minutes : ℚ) /
      pyMax (flights.map (fun f => (f.total_duration_minutes : ℚ)))
  let stops_score : ℚ := 1 - (flight.number_of_stops : ℚ) / 3
  price_score * 0.5 + duration_score * 0.3 + stops_score * 0.2

/-- The budget filter inside `_optimize_flights`: keep flights whose total
price is at most 40 percent of the budget. -/
def budget_filter_flights (flights : List FlightOption) (b : ℚ) : List FlightOption :=
  flights.filter (fun f => f.total_price ≤ b * 0.4)

/-- Scoring-and-truncation tail of `_optimize_flights`: score every flight
against the pool, sort descending by score (stable) and keep the top 10. -/
def rank_flights (flights : List FlightOption) : List FlightOption :=
  let flights_with_scores := flights.map (fun f => (f, score_flight flights f))
  ((sortDescBy (fun p => p.2) flights_with_scores).take 10).map (fun p => p.1)

/-- Dual-optimizer flight stage `SearchOrchestratorAgent._optimize_flights`
(`app/agents/search_orchestrator.py`).  The `if budget:` truthiness test of the
source becomes the `some b`, `b ≠ 0` match. -/
def optimize_flights (flights : List FlightOption) (budget : Option ℚ) : List FlightOption :=
  if flights.isEmpty then []
  else
    match budget with
    | some b =>
      if b = 0 then rank_flights flights
      else
        let fs := budget_filter_flights flights b
        if fs.isEmpty then [] else rank_flights fs
    | none => rank_flights flights

/-- Hotel score from `SearchOrchestratorAgent._optimize_hotels.score_hotel`
(`app/agents/search_orchestrator.py`). -/
def score_hotel (hotels : List AccommodationOption) (style : String)
    (hotel : AccommodationOption) : ℚ :=
  let max_price : ℚ :=
    let m := pyMax (hotels.map (fun h => h.total_price))
    if m = 0 then 1 else m
  let price_score : ℚ :=
    if style = "budget" ∨ style = "backpacker" then 1 - hotel.total_price / max_price
    else if style = "luxury" ∨ style = "comfort" then 0.5
    else 0.7 - hotel.total_price / max_price * 0.4
  let rating_score : ℚ := (hotel.rating.getD 0) / 5
  let location_score : ℚ :=
    match hotel.distance_to_center_km with
    | some d => if d ≠ 0 then max 0 (1 - d / 10) else 0.5
    | none => 0.5
  let lux_rated : Bool :=
    match hotel.rating with
    | some r => r != 0 && decide (r ≥ 4.5)
    | none => false
  let style_bonus : ℚ :=
    if style = "luxury" ∧ lux_rated = true then 0.2
    else if style = "family" ∧ "Kids Club" ∈ hotel.amenities then 0.2
    else if style = "budget" ∧ hotel.price_per_night < 80 then 0.2
    else 0
  price_score * 0.35 + rating_score * 0.35 + location_score * 0.2 + style_bonus * 0.1

/-- Order-preserving price bucketing from the tail of `_optimize_hotels`:
nightly price below 100 / 100 to below 200 / 200 and above. -/
def bucket_hotels : List AccommodationOption →
    List AccommodationOption × List AccommodationOption × List AccommodationOption
  | [] => ([], [], [])
  | h :: rest =>
    let (low, mid, high) := bucket_hotels rest
    if h.price_per_night < 100 then (h :: low, mid, high)
    else if h.price_per_night < 200 then (low, h :: mid, high)
    else (low, mid, h :: high)

/-- Price-tier selection at the tail of `_optimize_hotels`: up to 4 hotels
from the low bucket, 4 from the mid bucket, 2 from the high bucket, capped
at 15. -/
def diversity_take (sorted : List AccommodationOption) : List AccommodationOption :=
  let buckets := bucket_hotels sorted
  (buckets.1.take 4 ++ buckets.2.1.take 4 ++ buckets.2.2.take 2).take 15

/-- Dual-optimizer hotel stage `SearchOrchestratorAgent._optimize_hotels`
(`app/agents/search_orchestrator.py`): budget filter, scoring, stable
descending sort, then the price-tier diversity selection. -/
def optimize_hotels (hotels : List AccommodationOption) (budget : Option ℚ)
    (style : String) : List AccommodationOption :=
  if hotels.isEmpty then []
  else
    let hs := match budget with
      | some b => if b = 0 then hotels else hotels.filter (fun h => h.total_price ≤ b * 0.4)
      | none => hotels
    let hotels_with_scores := hs.map (fun h => (h, score_hotel hs style h))
    diversity_take ((sortDescBy (fun p => p.2) hotels_with_scores).map (fun p => p.1))

/-- Arbitrary default flight used only as the never-taken default of
`List.getD` at indices that are proven in range. -/
def dfltFlight : FlightOption :=
  { outbound_segments := [], return_segments := [], total_price := 0,
    currency := "EUR", total_duration_minutes := 0, number_of_stops := 0,
    booking_link := none, source := "amadeus" }

/-- Arbitrary default accommodation used only as the never-taken default of
`List.getD` at indices that are proven in range. -/
def dfltHotel : AccommodationOption :=
  { name := "", type := "hotel", address := "", city := "", country := "",
    price_per_night := 0, total_price := 0, currency := "EUR", rating := none,
    review_count := none, amenities := [], room_type := none, check_in := 0,
    check_out := 0, latitude := none, longitude := none,
    distance_to_center_km := none, booking_link := none, source := "booking.com" }

/-- Sort key of the balanced flight choice in
`SynthesisAgent._create_balanced_itinerary` (`app/agents/synthesis_agent.py`):
price penalized by stop count. -/
def balanced_flight_key (f : FlightOption) : ℚ :=
  f.total_price / (24 - (f.number_of_stops : ℚ) * 8)

/-- Cost block shared by the three itinerary creators: flight cost, lodging
cost, zero activities cost, style-rate food cost over adults plus children,
and their sum. -/
def itinerary_costs (intent : TravelIntent) (selected_flight : FlightOption)
    (selected_hotels : List AccommodationOption) (food_rate : ℚ) :
    ℚ × ℚ × ℚ × ℚ × ℚ :=
  let flight_cost := selected_flight.total_price
  let accommodation_cost := (selected_hotels.map (fun h => h.total_price)).sum
  let activities_cost : ℚ := 0
  let food_cost :=
    (pyOrInt intent.duration_days 7 : ℚ) * food_rate *
      ((intent.num_adults : ℚ) + (intent.num_children : ℚ))
  (flight_cost, accommodation_cost, activities_cost, food_cost,
    flight_cost + accommodation_cost + activities_cost + food_cost)

/-- Budget itinerary creator `SynthesisAgent._create_budget_itinerary`
(`app/agents/synthesis_agent.py`): cheapest flight by total price, cheapest
hotel by nightly rate, food rate 40. -/
def create_budget_itinerary (intent : TravelIntent) (flight_pool : List FlightOption)
    (hotel_pool : List AccommodationOption) : Option Itinerary :=
  let flights := sortAscBy (fun f => f.total_price) flight_pool
  match flights with
  | [] => none
  | selected_flight :: _ =>
    let hotels := sortAscBy (fun h => h.price_per_night) hotel_pool
    match hotels with
    | [] => none
    | h0 :: _ =>
      let selected_hotels := [h0]
      let (flight_cost, accommodation_cost, activities_cost, food_cost, total) :=
        itinerary_costs intent selected_flight selected_hotels 40
      let duration := pyOrInt intent.duration_days 7
      some
        { title := "Budget Option - " ++ pyStr intent.destination,
          summary := "Smart spending without missing out. This " ++ toString duration ++
            "-day trip maximizes experiences while keeping costs down.",
          style_tag := "Budget",
          flights := selected_flight,
          accommodations := selected_hotels,
          daily_plans := [],
          flight_cost := flight_cost,
          accommodation_cost := accommodation_cost,
          activities_cost := activities_cost,
          estimated_food_cost := food_cost,
          total_cost := total,
          currency := "EUR",
          why_this_option := "This itinerary prioritizes value and authentic experiences.",
          tradeoffs := "To stay within budget, flights may include connections.",
          taste_score := none }

/-- Balanced itinerary creator `SynthesisAgent._create_balanced_itinerary`
(`app/agents/synthesis_agent.py`).  A flight with exactly 3 stops makes the
Python sort key raise `ZeroDivisionError`, which the surrounding
`try`/`except` turns into `None`; the leading `any` test models that. -/
def create_balanced_itinerary (intent : TravelIntent) (flight_pool : List FlightOption)
    (hotel_pool : List AccommodationOption) : Option Itinerary :=
  if flight_pool.any (fun f => 24 - (f.number_of_stops : ℚ) * 8 = 0) then none
  else
    let flights := sortAscBy balanced_flight_key flight_pool
    match flights with
    | [] => none
    | f0 :: _ =>
      let selected_flight := flights.getD (flights.length / 2) f0
      let hotels_by_price := sortAscBy (fun h => h.price_per_night) hotel_pool
      match hotels_by_price with
      | [] => none
      | h0 :: _ =>
        let mid_index := if hotels_by_price.length = 2 then 0 else hotels_by_price.length / 2
        let selected_hotels := [hotels_by_price.getD mid_index h0]
        let (flight_cost, accommodation_cost, activities_cost, food_cost, total) :=
          itinerary_costs intent selected_flight selected_hotels 60
        let duration := pyOrInt intent.duration_days 7
        some
          { title := "Balanced Option - " ++ pyStr intent.destination,
            summary := "The sweet spot between comfort and adventure. " ++ toString duration ++
              " days of well-paced exploration with quality accommodations.",
            style_tag := "Balanced Family",
            flights := selected_flight,
            accommodations := selected_hotels,
            daily_plans := [],
            flight_cost := flight_cost,
            accommodation_cost := accommodation_cost,
            activities_cost := activities_cost,
            estimated_food_cost := food_cost,
            total_cost := total,
            currency := "EUR",
            why_this_option := "This itinerary strikes the perfect balance.",
            tradeoffs := "Mid-range pricing means good value without extremes.",
            taste_score := none }

/-- Premium itinerary creator `SynthesisAgent._create_premium_itinerary`
(`app/agents/synthesis_agent.py`): flight minimizing (stops, duration)
lexicographically, most expensive hotel by nightly rate, food rate 100. -/
def create_premium_itinerary (intent : TravelIntent) (flight_pool : List FlightOption)
    (hotel_pool : List AccommodationOption) : Option Itinerary :=
  let flights := sortAscBy
    (fun f => (toLex ((f.number_of_stops, f.total_duration_minutes) : Int × Int)))
    flight_pool
  match flights with
  | [] => none
  | selected_flight :: _ =>
    let hotels_by_price := sortDescBy (fun h => h.price_per_night) hotel_pool
    match hotels_by_price with
    | [] => none
    | h0 :: _ =>
      let selected_hotels := [h0]
      let (flight_cost, accommodation_cost, activities_cost, food_cost, total) :=
        itinerary_costs intent selected_flight selected_hotels 100
      let duration := pyOrInt intent.duration_days 7
      some
        { title := "Luxury Option - " ++ pyStr intent.destination,
          summary := "Elevated travel with every detail perfected. " ++ toString duration ++
            " days of luxury accommodations, seamless logistics, and curated experiences.",
          style_tag := "Luxury",
          flights := selected_flight,
          accommodations := selected_hotels,
          daily_plans := [],
          flight_cost := flight_cost,
          accommodation_cost := accommodation_cost,
          activities_cost := activities_cost,
          estimated_food_cost := food_cost,
          total_cost := total,
          currency := "EUR",
          why_this_option := "This itinerary prioritizes comfort, convenience, and memorable experiences.",
          tradeoffs := "Higher investment in quality means less budget flexibility.",
          taste_score := none }

/-- Neutral taste profile `TasteProfilerAgent._get_neutral_profile`
(`app/agents/taste_profiler.py`). -/
def get_neutral_profile : TasteProfile :=
  { preferred_styles := ["balanced"],
    budget_consciousness := "moderate",
    time_sensitivity := "balanced",
    comfort_level := "moderate",
    accommodation_preferences := ["hotel"],
    interests := [],
    past_destinations := [],
    preferred_airlines := [],
    preferred_hotel_chains := [],
    family_friendly := false }

/-- Budget-consciousness heuristic `TasteProfilerAgent._infer_budget_consciousness`:
budget per person per day below 100 is "high", above 300 is "low". -/
def infer_budget_consciousness (intent : TravelIntent) : String :=
  match intent.total_budget with
  | none => "moderate"
  | some b =>
    if b = 0 then "moderate"
    else
      let days := pyOrInt intent.duration_days 7
      let travelers := intent.num_adults + intent.num_children
      let budget_per_person_per_day : ℚ :=
        if travelers > 0 then b / ((days : ℚ) * (travelers : ℚ)) else 0
      if budget_per_person_per_day < 100 then "high"
      else if budget_per_person_per_day > 300 then "low"
      else "moderate"

/-- Comfort heuristic `TasteProfilerAgent._infer_comfort_level`. -/
def infer_comfort_level (intent : TravelIntent) : String :=
  if intent.travel_style.value = "luxury" ∨ intent.travel_style.value = "relaxed" then "high"
  else if intent.travel_style.value = "adventure" ∨ intent.travel_style.value = "budget" then "low"
  else "moderate"

/-- Default profile `TasteProfilerAgent._create_default_profile`
(`app/agents/taste_profiler.py`). -/
def create_default_profile (intent : Option TravelIntent) : TasteProfile :=
  match intent with
  | none => get_neutral_profile
  | some i =>
    { preferred_styles := [i.travel_style.value],
      budget_consciousness := infer_budget_consciousness i,
      time_sensitivity := "balanced",
      comfort_level := infer_comfort_level i,
      accommodation_preferences := pyOrList i.accommodation_type ["hotel"],
      interests := pyOrList i.interests [],
      past_destinations := [],
      preferred_airlines := [],
      preferred_hotel_chains := [],
      family_friendly := i.num_children > 0 }

/-- Arbitrary default segment standing for the `outbound_segments[0]` access
in `_score_flight`; real offers always carry at least one segment. -/
def dfltSegment : FlightSegment :=
  { origin := "", destination := "", departure := 0, arrival := 0, carrier := "",
    flight_number := "", duration_minutes := 0, aircraft := none,
    booking_class := "economy" }

/-- Taste re-score of a flight, `TasteProfilerAgent._score_flight`
(`app/agents/taste_profiler.py`): neutral 0.5 baseline with additive
adjustments, clamped to the unit interval. -/
def taste_score_flight (flight : FlightOption) (profile : TasteProfile)
    (intent : Option TravelIntent) : ℚ :=
  let score : ℚ := 0.5
  let score :=
    if profile.time_sensitivity = "high" then
      if flight.number_of_stops = 0 then score + 0.3
      else if flight.number_of_stops = 1 then score + 0.1
      else score - 0.1
    else if profile.time_sensitivity = "low" then
      if flight.number_of_stops ≥ 1 then score + 0.1 else score
    else score
  let score :=
    match intent with
    | some i =>
      match i.total_budget with
      | some b =>
        if b = 0 then score
        else
          let price_ratio := flight.total_price / (b * 0.4)
          if profile.budget_consciousness = "high" then
            score + max 0 (0.3 - price_ratio * 0.3)
          else if profile.budget_consciousness = "low" then score + 0.1
          else score
      | none => score
    | none => score
  let score :=
    if profile.comfort_level = "high" ∧
        (flight.outbound_segments.headD dfltSegment).booking_class ≠ "economy" then
      score + 0.2
    else score
  let carriers :=
    (flight.outbound_segments ++ flight.return_segments).map (fun seg => seg.carrier)
  let score :=
    if profile.preferred_airlines ≠ [] ∧
        carriers.any (fun c => profile.preferred_airlines.contains c) then
      score + 0.15
    else score
  min 1 (max 0 score)

/-- Taste re-score of a hotel, `TasteProfilerAgent._score_hotel`
(`app/agents/taste_profiler.py`). -/
def taste_score_hotel (hotel : AccommodationOption) (profile : TasteProfile)
    (intent : Option TravelIntent) : ℚ :=
  let score : ℚ := 0.5
  let score :=
    if hotel.type ∈ profile.accommodation_preferences then score + 0.2 else score
  let score :=
    if profile.family_friendly ∧
        (["Kids Club", "Pool", "Family Room", "Playground"]).any
          (fun a => hotel.amenities.contains a) then
      score + 0.2
    else score
  let score :=
    if profile.comfort_level = "high" then
      let rated : Bool :=
        match hotel.rating with
        | some r => r != 0 && decide (r ≥ 4.5)
        | none => false
      let score := if rated then score + 0.2 else score
      let lux_count :=
        (["Spa", "Concierge", "Pool", "Restaurant"]).countP
          (fun a => hotel.amenities.contains a)
      if lux_count ≥ 2 then score + 0.1 else score
    else if profile.comfort_level = "low" then
      if hotel.price_per_night < 100 then score + 0.15 else score
    else score
  let score :=
    match intent with
    | some i =>
      match i.total_budget with
      | some b =>
        if b = 0 then score
        else
          let price_ratio := hotel.total_price / (b * 0.4)
          if profile.budget_consciousness = "high" then
            score + max 0 (0.3 - price_ratio * 0.3)
          else score
      | none => score
    | none => score
  let score :=
    match hotel.rating with
    | some r => if r ≠ 0 then score + r / 5 * 0.15 else score
    | none => score
  let score :=
    match hotel.distance_to_center_km with
    | some d => if d ≠ 0 ∧ d < 2 then score + 0.1 else score
    | none => score
  min 1 (max 0 score)

/-- First selection loop of `TasteProfilerAgent._select_diverse_hotels`: walk
the ranked list, taking a hotel only while its price bucket holds fewer than 4
picks and its accommodation type fewer than 3, stopping at `max_results`. -/
def diverse_select_loop (scored : List (AccommodationOption × ℚ))
    (selected : List AccommodationOption) (types_seen : List String)
    (low mid high : Nat) (max_results : Nat) : List AccommodationOption :=
  match scored with
  | [] => selected
  | (hotel, _) :: rest =>
    if selected.length ≥ max_results then selected
    else
      let bucket_count :=
        if hotel.price_per_night < 100 then low
        else if hotel.price_per_night < 200 then mid
        else high
      if bucket_count < 4 ∧ types_seen.count hotel.type < 3 then
        let low' := if hotel.price_per_night < 100 then low + 1 else low
        let mid' :=
          if ¬ hotel.price_per_night < 100 ∧ hotel.price_per_night < 200 then mid + 1 else mid
        let high' :=
          if ¬ hotel.price_per_night < 100 ∧ ¬ hotel.price_per_night < 200 then high + 1
          else high
        diverse_select_loop rest (selected ++ [hotel]) (types_seen ++ [hotel.type])
          low' mid' high' max_results
      else diverse_select_loop rest selected types_seen low mid high max_results

/-- Second, gap-filling loop of `_select_diverse_hotels`: append unused ranked
hotels until `remaining` more have been added. -/
def diverse_fill_loop (scored : List (AccommodationOption × ℚ))
    (selected : List AccommodationOption) (remaining : Nat) : List AccommodationOption :=
  match scored with
  | [] => selected
  | (hotel, _) :: rest =>
    if hotel ∈ selected then diverse_fill_loop rest selected remaining
    else
      let selected' := selected ++ [hotel]
      if remaining - 1 = 0 then selected'
      else diverse_fill_loop rest selected' (remaining - 1)

/-- Preference re-ranker diverse selection
`TasteProfilerAgent._select_diverse_hotels` (`app/agents/taste_profiler.py`),
with its default cap of 12. -/
def select_diverse_hotels (scored : List (AccommodationOption × ℚ))
    (max_results : Nat := 12) : List AccommodationOption :=
  let selected := diverse_select_loop scored [] [] 0 0 0 max_results
  let remaining := max_results - selected.length
  if remaining > 0 then diverse_fill_loop scored selected remaining else selected

/-- Taste-profiler LangGraph node `TasteProfilerAgent.profile`
(`app/agents/taste_profiler.py`): re-score both pools against the profile,
keep the top 8 flights and a diverse set of at most 12 hotels. -/
def taste_profile_node (s : AgentState) : AgentState :=
  let s := { s with agent_messages :=
    s.agent_messages ++ ["Taste Profiler: Analyzing your preferences..."] }
  let taste_profile :=
    match s.user_taste_profile with
    | some p => p
    | none => create_default_profile s.parsed_intent
  let scored_flights :=
    s.flight_options.map (fun f => (f, taste_score_flight f taste_profile s.parsed_intent))
  let flight_options := ((sortDescBy (fun p => p.2) scored_flights).take 8).map (fun p => p.1)
  let scored_hotels :=
    s.accommodation_options.map
      (fun h => (h, taste_score_hotel h taste_profile s.parsed_intent))
  let accommodation_options := select_diverse_hotels (sortDescBy (fun p => p.2) scored_hotels)
  { s with flight_options := flight_options,
           accommodation_options := accommodation_options,
           agent_messages := s.agent_messages ++
             ["Taste Profiler: Ranked options based on your preferences"],
           current_step := "taste_profiled" }

/-- City-to-IATA lookup table inside `AmadeusFlightService._get_iata_code`
(`app/services/amadeus_client.py`). -/
def common_iata_codes : List (String × String) :=
  [("london", "LON"), ("paris", "PAR"), ("rome", "ROM"), ("barcelona", "BCN"),
   ("madrid", "MAD"), ("berlin", "BER"), ("amsterdam", "AMS"), ("lisbon", "LIS"),
   ("copenhagen", "CPH"), ("stockholm", "STO"), ("oslo", "OSL"), ("helsinki", "HEL"),
   ("vienna", "VIE"), ("prague", "PRG"), ("budapest", "BUD"), ("warsaw", "WAW"),
   ("dublin", "DUB"), ("athens", "ATH"), ("istanbul", "IST"),
   ("nice", "NCE"), ("cannes", "NCE"), ("valencia", "VLC"), ("malaga", "AGP"),
   ("alicante", "ALC"), ("palma", "PMI"), ("ibiza", "IBZ"), ("mykonos", "JMK"),
   ("santorini", "JTR"), ("split", "SPU"), ("dubrovnik", "DBV"), ("faro", "FAO"),
   ("porto", "OPO"),
   ("milan", "MIL"), ("venice", "VCE"), ("florence", "FLR"), ("naples", "NAP"),
   ("zurich", "ZRH"), ("geneva", "GVA"), ("brussels", "BRU"), ("lyon", "LYS"),
   ("marseille", "MRS"), ("edinburgh", "EDI"), ("manchester", "MAN"),
   ("munich", "MUC"), ("frankfurt", "FRA"), ("hamburg", "HAM"),
   ("new york", "NYC"), ("los angeles", "LAX"), ("san francisco", "SFO"),
   ("chicago", "CHI"), ("miami", "MIA"), ("orlando", "MCO"), ("las vegas", "LAS"),
   ("tokyo", "TYO"), ("kyoto", "KIX"), ("osaka", "KIX"), ("yokohama", "TYO"),
   ("nagoya", "NGO"), ("sapporo", "SPK"), ("fukuoka", "FUK"), ("nara", "KIX"),
   ("nagano", "TYO"),
   ("dubai", "DXB"), ("singapore", "SIN"), ("hong kong", "HKG"), ("bangkok", "BKK"),
   ("bali", "DPS"), ("phuket", "HKT"), ("seoul", "SEL"), ("beijing", "BJS"),
   ("shanghai", "SHA"), ("delhi", "DEL"), ("mumbai", "BOM"), ("sydney", "SYD"),
   ("melbourne", "MEL"),
   ("cancun", "CUN"), ("mexico city", "MEX"), ("rio de janeiro", "RIO"),
   ("sao paulo", "SAO"), ("buenos aires", "BUE"), ("toronto", "YTO"),
   ("vancouver", "YVR"), ("montreal", "YMQ"),
   ("tenerife", "TCI"), ("gran canaria", "LPA"), ("lanzarote", "ACE"),
   ("takayama", "TYO"), ("hakone", "TYO"), ("nikko", "TYO"), ("kanazawa", "TYO"),
   ("kobe", "KIX"), ("siena", "ROM"), ("assisi", "ROM"), ("verona", "MIL"),
   ("bologna", "MIL"), ("cinque terre", "MIL"), ("positano", "NAP"),
   ("granada", "MAD"), ("san sebastian", "MAD"), ("seville", "MAD"),
   ("tours", "PAR"), ("avignon", "PAR"), ("annecy", "PAR"),
   ("salzburg", "VIE"), ("innsbruck", "VIE")]

/-- City-to-alternative-airports table inside
`AmadeusFlightService._get_alternative_airports` (`app/services/amadeus_client.py`). -/
def alternative_airport_codes : List (String × List String) :=
  [("kyoto", ["OSA", "ITM", "UKB"]), ("osaka", ["ITM", "UKB"]), ("tokyo", ["NRT", "HND"]),
   ("london", ["LHR", "LGW", "STN", "LTN"]), ("paris", ["CDG", "ORY"]),
   ("rome", ["FCO", "CIA"]), ("milan", ["MXP", "LIN", "BGY"]),
   ("barcelona", ["BCN", "GRO"]),
   ("new york", ["JFK", "EWR", "LGA"]), ("los angeles", ["LAX", "BUR", "ONT"]),
   ("chicago", ["ORD", "MDW"]), ("san francisco", ["SFO", "OAK", "SJC"]),
   ("bangkok", ["BKK", "DMK"]), ("seoul", ["ICN", "GMP"]),
   ("shanghai", ["PVG", "SHA"]), ("beijing", ["PEK", "PKX"])]

/-- Python `location.split(",")[0].strip()` applied when the location contains
a comma (country stripping, shared by both clients), modelled on the
character list. -/
def strip_country (location : String) : String :=
  if location.data.contains ',' then
    pyStrip ⟨location.data.takeWhile (fun c => c ≠ ',')⟩
  else location

/-- City-to-IATA conversion `AmadeusFlightService._get_iata_code`
(`app/services/amadeus_client.py`). -/
def get_iata_code (location : String) : String :=
  let location := strip_country location
  let location_lower := pyStrip (pyLower location)
  if location.length = 3 ∧ location.data.all Char.isAlpha then pyUpper location
  else ((common_iata_codes.lookup location_lower).getD ⟨(pyUpper location).data.take 3⟩)

/-- Alternative airports lookup `AmadeusFlightService._get_alternative_airports`
(`app/services/amadeus_client.py`); the `primary_code` parameter is unused in
the source as well. -/
def get_alternative_airports (city : String) (_primary_code : String) : List String :=
  let city := strip_country city
  let city_lower := pyStrip (pyLower city)
  (alternative_airport_codes.lookup city_lower).getD []

/-- Single-route search `AmadeusFlightService._search_route`
(`app/services/amadeus_client.py`): the provider call is the oracle; every
exception is caught and turned into an empty result. -/
def search_route (oracle : String → String → Except String (List FlightOption))
    (origin_code dest_code : String) : List FlightOption :=
  match oracle origin_code dest_code with
  | .ok l => l
  | .error _ => []

/-- One `for` loop of `AmadeusFlightService.search_flights`: try each route in
order and return the first non-empty result, else the empty list. -/
def try_routes (oracle : String → String → Except String (List FlightOption)) :
    List (String × String) → List FlightOption
  | [] => []
  | r :: rest =>
    let flight_options := search_route oracle r.1 r.2
    if flight_options.isEmpty then try_routes oracle rest else flight_options

/-- Airport-widening fallback `AmadeusFlightService.search_flights`
(`app/services/amadeus_client.py`): primary route, then alternative
destinations, then alternative origins, then the 2-by-2 cross product of
alternatives; missing origin, destination or dates short-circuit to `[]`. -/
def amadeus_search_flights
    (oracle : String → String → Except String (List FlightOption))
    (intent : TravelIntent) : List FlightOption :=
  match intent.origin, intent.destination with
  | some o, some d =>
    if o = "" ∨ d = "" then []
    else
      match intent.departure_date, intent.return_date with
      | some _, some _ =>
        let origin_code := get_iata_code o
        let dest_code := get_iata_code d
        let origin_alternatives := get_alternative_airports o origin_code
        let dest_alternatives := get_alternative_airports d dest_code
        let primary := search_route oracle origin_code dest_code
        if ¬ primary.isEmpty then primary
        else
          let alt_dest_step :=
            try_routes oracle (dest_alternatives.map (fun alt => (origin_code, alt)))
          if ¬ alt_dest_step.isEmpty then alt_dest_step
          else
            let alt_origin_step :=
              try_routes oracle (origin_alternatives.map (fun alt => (alt, dest_code)))
            if ¬ alt_origin_step.isEmpty then alt_origin_step
            else
              try_routes oracle
                (((origin_alternatives.take 2).map
                    (fun ao => (dest_alternatives.take 2).map (fun ad => (ao, ad)))).flatten)
      | _, _ => []
  | _, _ => []

/-- The route attempts of `amadeus_search_flights`, flattened in the exact
order the source tries them. -/
def amadeus_route_plan (intent : TravelIntent) : List (String × String) :=
  let o := (intent.origin).getD ""
  let d := (intent.destination).getD ""
  let origin_code := get_iata_code o
  let dest_code := get_iata_code d
  let origin_alternatives := get_alternative_airports o origin_code
  let dest_alternatives := get_alternative_airports d dest_code
  (origin_code, dest_code) ::
    (dest_alternatives.map (fun alt => (origin_code, alt)) ++
     origin_alternatives.map (fun alt => (alt, dest_code)) ++
     ((origin_alternatives.take 2).map
        (fun ao => (dest_alternatives.take 2).map (fun ad => (ao, ad)))).flatten)

/-- First non-empty list of a list of lists, else `[]` (the semantics of a
first-success-wins fallback chain). -/
def first_nonempty {α : Type} : List (List α) → List α
  | [] => []
  | x :: rest => if x.isEmpty then first_nonempty rest else x

/-- Flight-search fallback `SearchOrchestratorAgent._search_flights_async`
(`app/agents/search_orchestrator.py`): SerpAPI first (its outcome is the
`serp` oracle); only if it raises or returns no flights is Amadeus consulted. -/
def search_flights_async (serp : Except String (List FlightOption))
    (oracle : String → String → Except String (List FlightOption))
    (intent : TravelIntent) : List FlightOption :=
  match serp with
  | .ok flights => if flights.isEmpty then amadeus_search_flights oracle intent else flights
  | .error _ => amadeus_search_flights oracle intent

/-- Python `x or d` for an optional string (used for
`intent.destination or "..."`). -/
def pyOrStr (o : Option String) (d : String) : String :=
  match o with
  | none => d
  | some s => if s = "" then d else s

/-- Python `f"{x}"` of an optional integer (`None` prints as `"None"`). -/
def pyIntStr (o : Option Int) : String :=
  match o with
  | none => "None"
  | some n => toString n

/-- Half-up model of Python `round(x, 2)`. -/
def round2 (q : ℚ) : ℚ := ((⌊q * 100 + 1 / 2⌋ : ℤ) : ℚ) / 100

/-- Half-up model of Python `round(x, 1)`. -/
def round1 (q : ℚ) : ℚ := ((⌊q * 10 + 1 / 2⌋ : ℤ) : ℚ) / 10

/-- One template of `HotelSearchService._generate_mock_hotels`
(`app/services/hotel_client.py`). -/
structure HotelTemplate where
  name : String
  type : String
  rating : ℚ
  amenities : List String
  style : String

/-- The five mock-hotel templates of `_generate_mock_hotels`. -/
def hotel_templates (destination : String) : List HotelTemplate :=
  [{ name := "Grand " ++ destination ++ " Hotel", type := "hotel", rating := 4.5,
     amenities := ["WiFi", "Pool", "Spa", "Restaurant", "Gym", "Bar"], style := "luxury" },
   { name := destination ++ " Central Apartments", type := "apartment", rating := 4.2,
     amenities := ["WiFi", "Kitchen", "Washing Machine", "City View"], style := "apartment" },
   { name := "Budget Inn " ++ destination, type := "hotel", rating := 3.8,
     amenities := ["WiFi", "Breakfast", "24h Reception"], style := "budget" },
   { name := destination ++ " Family Resort", type := "resort", rating := 4.6,
     amenities := ["WiFi", "Kids Club", "Pool", "Animation", "Restaurant", "Beach Access"],
     style := "family" },
   { name := "Boutique Hotel " ++ destination, type := "hotel", rating := 4.7,
     amenities := ["WiFi", "Rooftop Bar", "Concierge", "Designer Rooms"], style := "boutique" }]

/-- Default template for in-range `getD` accesses of the template list. -/
def dfltTemplate : HotelTemplate :=
  { name := "", type := "hotel", rating := 0, amenities := [], style := "budget" }

/-- Mock-hotel generator `HotelSearchService._generate_mock_hotels`
(`app/services/hotel_client.py`).  The `random` draws are supplied by the
`rand` oracle: `rand i k` is the k-th draw for hotel `i` (0 price multiplier,
1 street number, 2 rating offset, 3 review count, 4 latitude, 5 longitude,
6 distance to center). -/
def generate_mock_hotels (rand : Nat → Nat → ℚ) (intent : TravelIntent)
    (max_results : Nat) : List AccommodationOption :=
  let destination := pyOrStr intent.destination "European City"
  let nights := pyOrInt intent.duration_days 7
  let budget_per_night : ℚ :=
    match intent.total_budget with
    | some b => if b = 0 then 150 else b * 0.4 / (nights : ℚ)
    | none => 150
  let templates := hotel_templates destination
  let mock_hotels := (List.range (min max_results (templates.length * 2))).map (fun i =>
    let template := templates.getD (i % templates.length) dfltTemplate
    let price_multiplier := rand i 0
    let price_per_night := budget_per_night * price_multiplier
    let total_price := price_per_night * (nights : ℚ)
    { name := template.name ++ " - " ++ toString (i + 1),
      type := template.type,
      address := toString (rand i 1) ++ " " ++ destination ++ " Street",
      city := destination,
      country := "Mock Country",
      price_per_night := round2 price_per_night,
      total_price := round2 total_price,
      currency := "EUR",
      rating := some (template.rating + rand i 2),
      review_count := some ⌊rand i 3⌋,
      amenities := template.amenities,
      room_type := some (if template.type = "hotel" then "Standard Room" else "Apartment"),
      check_in := (intent.departure_date).getD 0,
      check_out := (intent.return_date).getD 0,
      latitude := some (rand i 4),
      longitude := some (rand i 5),
      distance_to_center_km := some (round1 (rand i 6)),
      booking_link := some ("https://booking.com/mock-hotel-" ++ toString (i + 1)),
      source := "mock_data" : AccommodationOption })
  sortDescBy (fun h => h.rating.getD 0 - h.price_per_night / 1000) mock_hotels

/-- Credentials held by `HotelSearchService.__init__`
(`app/services/hotel_client.py`). -/
structure HotelServiceConfig where
  hotelbeds_api_key : Option String
  hotelbeds_api_secret : Option String
  rapidapi_key : Option String
  deriving DecidableEq

/-- Truthiness test `if self.hotelbeds_api_key and self.hotelbeds_api_secret`. -/
def hotelbeds_configured (cfg : HotelServiceConfig) : Bool :=
  truthyStr cfg.hotelbeds_api_key && truthyStr cfg.hotelbeds_api_secret

/-- Result of a provider step whose exceptions are caught and logged: a raise
becomes an empty pool. -/
def unwrap_or_empty : Except String (List AccommodationOption) → List AccommodationOption
  | .ok l => l
  | .error _ => []

/-- The Hotelbeds step of `search_hotels`: skipped entirely (empty) when the
credentials are not configured, its exceptions caught. -/
def hotelbeds_step (cfg : HotelServiceConfig)
    (hotelbeds_outcome : Except String (List AccommodationOption)) :
    List AccommodationOption :=
  if hotelbeds_configured cfg then unwrap_or_empty hotelbeds_outcome else []

/-- Lodging fallback chain `HotelSearchService.search_hotels`
(`app/services/hotel_client.py`): mock data immediately when `use_mock` was
requested; otherwise Hotelbeds, then Amadeus, then Booking.com when a RapidAPI
key exists (an exception inside the Booking.com step yields mock data from
within `_search_booking_com`), and mock data when no hotel API is available. -/
def search_hotels (cfg : HotelServiceConfig) (use_mock : Bool)
    (hotelbeds_outcome amadeus_outcome booking_outcome : Except String (List AccommodationOption))
    (rand : Nat → Nat → ℚ) (intent : TravelIntent) (max_results : Nat) :
    List AccommodationOption :=
  if ¬ truthyStr intent.destination then []
  else if use_mock then generate_mock_hotels rand intent max_results
  else
    let hb := hotelbeds_step cfg hotelbeds_outcome
    if ¬ hb.isEmpty then hb
    else
      let am := unwrap_or_empty amadeus_outcome
      if ¬ am.isEmpty then am
      else if truthyStr cfg.rapidapi_key then
        match booking_outcome with
        | .ok l => l
        | .error _ => generate_mock_hotels rand intent max_results
      else generate_mock_hotels rand intent max_results

/-- Intent-parser LangGraph node `IntentParserAgent.parse_intent`
(`app/agents/intent_parser.py`): the LLM extraction is the oracle; an
exception leaves `parsed_intent` unset and logs an error. -/
def parse_intent_node (outcome : Except String TravelIntent) (s : AgentState) : AgentState :=
  match outcome with
  | .ok intent =>
    let msg := "Intent Parser: Understood your request - " ++ pyIntStr intent.duration_days ++
      " days to " ++ pyOrStr intent.destination "flexible destination" ++ " for " ++
      toString intent.num_adults ++ " adult(s)" ++
      (if intent.num_children > 0 then
        " and " ++ toString intent.num_children ++ " child(ren)" else "")
    { s with parsed_intent := some intent,
             agent_messages := s.agent_messages ++ [msg],
             current_step := "intent_parsed" }
  | .error e =>
    let msg := "Intent Parser Error: " ++ e
    { s with errors := s.errors ++ [msg], agent_messages := s.agent_messages ++ [msg] }

/-- Post-intent gate `TravelConciergeWorkflow._should_continue_after_intent`
(`app/agents/workflow.py`), returning the edge label together with the
possibly updated state (the gate appends an error when both destination and
budget are missing). -/
def should_continue_after_intent (s : AgentState) : String × AgentState :=
  match s.parsed_intent with
  | none => ("end", s)
  | some intent =>
    if !truthyStr intent.destination && !truthyQ intent.total_budget then
      ("end", { s with errors :=
        s.errors ++ ["Missing critical information: destination or budget"] })
    else ("continue", s)

/-- Search-orchestrator node `SearchOrchestratorAgent.search`
(`app/agents/search_orchestrator.py`): the two concurrent branch outcomes are
the oracles; a raising branch is logged and contributes an empty pool, then
both pools are optimized. -/
def search_node_model (flight_outcome : Except String (List FlightOption))
    (hotel_outcome : Except String (List AccommodationOption)) (s : AgentState) : AgentState :=
  match s.parsed_intent with
  | none =>
    let msg := "Search Orchestrator: No parsed intent found"
    { s with errors := s.errors ++ [msg], agent_messages := s.agent_messages ++ [msg] }
  | some intent =>
    let s := { s with agent_messages :=
      s.agent_messages ++ ["Search Orchestrator: Searching for flights and hotels..."] }
    let flight_errors :=
      match flight_outcome with
      | .ok _ => []
      | .error e => ["Flight search error: " ++ e]
    let raw_flights :=
      match flight_outcome with
      | .ok l => l
      | .error _ => []
    let hotel_errors :=
      match hotel_outcome with
      | .ok _ => []
      | .error e => ["Hotel search error: " ++ e]
    let raw_hotels :=
      match hotel_outcome with
      | .ok l => l
      | .error _ => []
    let flight_options := optimize_flights raw_flights intent.total_budget
    let accommodation_options :=
      optimize_hotels raw_hotels intent.total_budget intent.travel_style.value
    { s with flight_options := flight_options,
             accommodation_options := accommodation_options,
             errors := s.errors ++ flight_errors ++ hotel_errors,
             agent_messages := s.agent_messages ++
               ["Search Orchestrator: Found " ++ toString flight_options.length ++
                " flights and " ++ toString accommodation_options.length ++ " hotels"],
             current_step := "search_complete" }

/-- Post-search gate `TravelConciergeWorkflow._should_continue_after_search`
(`app/agents/workflow.py`). -/
def should_continue_after_search (s : AgentState) : String × AgentState :=
  if s.flight_options.isEmpty && s.accommodation_options.isEmpty then
    ("end", { s with errors := s.errors ++ ["No travel options found matching your criteria"] })
  else
    let s :=
      if s.flight_options.length = 0 then
        { s with errors := s.errors ++ ["No flights available for your dates"] }
      else s
    ("continue", s)

/-- Synthesis LangGraph node `SynthesisAgent.synthesize`
(`app/agents/synthesis_agent.py`): builds the three archetype itineraries and
keeps those that could be built.  When `parsed_intent` is somehow absent every
creator raises internally and contributes nothing. -/
def synthesize_node (s : AgentState) : AgentState :=
  let s := { s with agent_messages :=
    s.agent_messages ++ ["Synthesis Agent: Creating your personalized itineraries..."] }
  if s.flight_options.isEmpty || s.accommodation_options.isEmpty then
    let msg := "Synthesis Agent: Insufficient search results"
    { s with errors := s.errors ++ [msg], agent_messages := s.agent_messages ++ [msg] }
  else
    let itineraries :=
      match s.parsed_intent with
      | none => []
      | some intent =>
        ([create_budget_itinerary intent s.flight_options s.accommodation_options,
          create_balanced_itinerary intent s.flight_options s.accommodation_options,
          create_premium_itinerary intent s.flight_options s.accommodation_options]).filterMap id
    { s with itineraries := itineraries,
             agent_messages := s.agent_messages ++
               ["Synthesis Agent: Created " ++ toString itineraries.length ++
                " complete itineraries"],
             current_step := "synthesis_complete" }

/-- Fresh per-run state built by `TravelConciergeWorkflow.run`. -/
def initial_state (user_message : String) (user_id : Option String) : AgentState :=
  { user_message := user_message, user_id := user_id, conversation_id := none,
    parsed_intent := none, flight_options := [], accommodation_options := [],
    user_taste_profile := none, itineraries := [], agent_messages := [],
    current_step := "start", errors := [] }

/-- Result record assembled by `TravelConciergeWorkflow.run`
(`app/agents/workflow.py`). -/
structure RunResult where
  success : Bool
  itineraries : List Itinerary
  agent_messages : List String
  errors : List String
  num_flight_options : Nat
  num_hotel_options : Nat
  num_itineraries : Nat
  deriving DecidableEq

/-- Full pipeline `TravelConciergeWorkflow.run` (`app/agents/workflow.py`):
parse intent, gate, search, taste-profile, gate, synthesize, then package the
final state; `success` is whether at least one itinerary was produced. -/
def run_workflow (parse_outcome : Except String TravelIntent)
    (flight_outcome : Except String (List FlightOption))
    (hotel_outcome : Except String (List AccommodationOption))
    (user_message : String) (user_id : Option String) : RunResult :=
  let s1 := parse_intent_node parse_outcome (initial_state user_message user_id)
  let gate1 := should_continue_after_intent s1
  let final :=
    if gate1.1 = "end" then gate1.2
    else
      let s2 := search_node_model flight_outcome hotel_outcome gate1.2
      let s3 := taste_profile_node s2
      let gate2 := should_continue_after_search s3
      if gate2.1 = "end" then gate2.2 else synthesize_node gate2.2
  { success := decide (0 < final.itineraries.length),
    itineraries := final.itineraries,
    agent_messages := final.agent_messages,
    errors := final.errors,
    num_flight_options := final.flight_options.length,
    num_hotel_options := final.accommodation_options.length,
    num_itineraries := final.itineraries.length }

/-- Scaling of a flight offer price by a constant factor (used to state scale
invariance of the flight ranking). -/
def scale_price (c : ℚ) (f : FlightOption) : FlightOption :=
  { f with total_price := c * f.total_price }

/-- Sample flight constructor for concrete test inputs. -/
def mkFlight (price : ℚ) (duration stops : Int) : FlightOption :=
  { dfltFlight with
    total_price := price
    total_duration_minutes := duration
    number_of_stops := stops }

/-- Sample hotel constructor for concrete test inputs. -/
def mkHotel (name : String) (nightly total : ℚ) : AccommodationOption :=
  { dfltHotel with name := name, price_per_night := nightly, total_price := total }

/-- Sample parsed request used by concrete witnesses: Rome for 10 days, two
adults, budget 5000. -/
def exIntent : TravelIntent :=
  { origin := some "Copenhagen", destination := some "Rome",
    destination_description := none, destination_image_url := none,
    departure_date := some 100, return_date := some 110,
    duration_days := some 10, date_flexibility := 3, travelers := [],
    num_adults := 2, num_children := 0, num_infants := 0,
    total_budget := some 5000, budget_flexibility := 0.1,
    budget_priorities := ["balanced"], travel_style := .balanced,
    accommodation_type := ["hotel", "apartment"], must_haves := [],
    must_not_haves := [], interests := [], special_occasions := [],
    mobility_requirements := none, dietary_restrictions := [] }

/-- Variant of the sample request with one infant. -/
def exIntentInfant : TravelIntent :=
  { exIntent with duration_days := some 7, num_infants := 1 }

/-- Variant of the sample request lacking both destination and budget. -/
def exIntentBare : TravelIntent :=
  { exIntent with destination := none, total_budget := none }

/-- Flight pool exhibiting the unclamped stops score: one 4-stop flight whose
price and duration are the pool maxima. -/
def cexStopsPool : List FlightOption := [mkFlight 100 600 4, mkFlight 100 600 0]

/-- Deterministic stand-in for the random oracle of the mock hotel generator. -/
def cexRand : Nat → Nat → ℚ := fun _ _ => 1

/-- Hotel-service configuration with no provider credentials at all. -/
def cexNoKeys : HotelServiceConfig :=
  { hotelbeds_api_key := none, hotelbeds_api_secret := none, rapidapi_key := none }

/-- The cost-breakdown property claimed for a synthesized itinerary of food
rate `rate` for a trip of `d` days: flight cost is the selected flight price,
lodging cost the sum of selected lodging totals, activities zero, food cost
`d · rate · (adults + children)`, and the total their exact sum. -/
def itinerary_cost_spec (intent : TravelIntent) (d : Int) (rate : ℚ)
    (it : Itinerary) : Prop :=
  it.flight_cost = it.flights.total_price ∧
  it.accommodation_cost = (it.accommodations.map (fun h => h.total_price)).sum ∧
  it.activities_cost = 0 ∧
  it.estimated_food_cost =
    (d : ℚ) * rate * ((intent.num_adults : ℚ) + (intent.num_children : ℚ)) ∧
  it.total_cost =
    it.flight_cost + it.accommodation_cost + it.activities_cost + it.estimated_food_cost

/-- Oracle used by the concrete flight-fallback witness: only the route to the
alternative airport FCO has offers. -/
def cexOracle : String → String → Except String (List FlightOption) :=
  fun _ b => if b = "FCO" then .ok [mkFlight 300 200 0] else .ok []

theorem insertStable_perm {α : Type} (keep : α → α → Bool) (x : α) (l : List α) :
    (insertStable keep x l).Perm (x :: l) := by
  induction l with
  | nil => simp [insertStable]
  | cons y ys ih =>
    by_cases h : keep y x = true
    · simpa [insertStable, h] using
        ((ih.cons y).trans (List.Perm.swap x y ys))
    · simp [insertStable, h]

theorem stableSort_foldl_perm {α : Type} (keep : α → α → Bool) (l acc : List α) :
    (l.foldl (fun acc x => insertStable keep x acc) acc).Perm (acc ++ l) := by
  induction l generalizing acc with
  | nil => simp
  | cons x xs ih =>
    exact (ih (insertStable keep x acc)).trans
      (((insertStable_perm keep x acc).append_right xs).trans List.perm_middle.symm)

theorem stableSort_perm {α : Type} (keep : α → α → Bool) (l : List α) :
    (stableSort keep l).Perm l := by
  simpa [stableSort] using stableSort_foldl_perm keep l []

theorem stableSort_length {α : Type} (keep : α → α → Bool) (l : List α) :
    (stableSort keep l).length = l.length :=
  (stableSort_perm keep l).length_eq

theorem mem_insertStable {α : Type} {keep : α → α → Bool} {x a : α} {l : List α} :
    a ∈ insertStable keep x l ↔ a = x ∨ a ∈ l := by
  simpa using (insertStable_perm keep x l).mem_iff

theorem insertStable_pairwise {α : Type} {keep : α → α → Bool}
    (htot : ∀ a b, keep a b = false → keep b a = true)
    (htrans : ∀ a b c, keep a b = true → keep b c = true → keep a c = true)
    (x : α) {l : List α} (hl : l.Pairwise (fun a b => keep a b = true)) :
    (insertStable keep x l).Pairwise (fun a b => keep a b = true) := by
  induction l with
  | nil => simp [insertStable]
  | cons y ys ih =>
    rcases List.pairwise_cons.mp hl with ⟨hy, hys⟩
    by_cases h : keep y x = true
    · rw [insertStable, if_pos h]
      refine List.pairwise_cons.mpr ⟨?_, ih hys⟩
      intro a ha
      rcases mem_insertStable.mp ha with rfl | ha
      · exact h
      · exact hy a ha
    · rw [insertStable, if_neg h]
      refine List.pairwise_cons.mpr ⟨?_, hl⟩
      intro a ha
      have hxy : keep x y = true := htot y x (Bool.eq_false_iff.mpr h)
      rcases List.mem_cons.mp ha with rfl | ha
      · exact hxy
      · exact htrans x y a hxy (hy a ha)

theorem stableSort_pairwise {α : Type} {keep : α → α → Bool}
    (htot : ∀ a b, keep a b = false → keep b a = true)
    (htrans : ∀ a b c, keep a b = true → keep b c = true → keep a c = true)
    (l : List α) :
    (stableSort keep l).Pairwise (fun a b => keep a b = true) := by
  suffices h : ∀ acc, acc.Pairwise (fun a b => keep a b = true) →
      (l.foldl (fun acc x => insertStable keep x acc) acc).Pairwise
        (fun a b => keep a b = true) by
    exact h [] (List.Pairwise.nil)
  induction l with
  | nil => intro acc hacc; simpa using hacc
  | cons x xs ih =>
    intro acc hacc
    exact ih (insertStable keep x acc) (insertStable_pairwise htot htrans x hacc)

theorem sortAscBy_perm {α κ : Type} [LinearOrder κ] (key : α → κ) (l : List α) :
    (sortAscBy key l).Perm l :=
  stableSort_perm _ l

theorem sortDescBy_perm {α κ : Type} [LinearOrder κ] (key : α → κ) (l : List α) :
    (sortDescBy key l).Perm l :=
  stableSort_perm _ l

theorem sortAscBy_pairwise {α κ : Type} [LinearOrder κ] (key : α → κ) (l : List α) :
    (sortAscBy key l).Pairwise (fun a b => key a ≤ key b) := by
  have h := @stableSort_pairwise _ (fun a b => decide (key a ≤ key b))
    (by
      intro a b hab
      simp only [decide_eq_false_iff_not, not_le] at hab
      simpa using hab.le)
    (by
      intro a b c hab hbc
      simp only [decide_eq_true_eq] at hab hbc ⊢
      exact hab.trans hbc)
    l
  refine h.imp ?_
  intro a b hab
  simpa using hab

theorem sortDescBy_pairwise {α κ : Type} [LinearOrder κ] (key : α → κ) (l : List α) :
    (sortDescBy key l).Pairwise (fun a b => key b ≤ key a) := by
  have h := @stableSort_pairwise _ (fun a b => decide (key b ≤ key a))
    (by
      intro a b hab
      simp only [decide_eq_false_iff_not, not_le] at hab
      simpa using hab.le)
    (by
      intro a b c hab hbc
      simp only [decide_eq_true_eq] at hab hbc ⊢
      exact hbc.trans hab)
    l
  refine h.imp ?_
  intro a b hab
  simpa using hab

theorem insertStable_map {α β : Type} (g : α → β) (keepA : α → α → Bool)
    (keepB : β → β → Bool) (h : ∀ a b, keepB (g a) (g b) = keepA a b) (x : α) :
    ∀ l : List α, insertStable keepB (g x) (l.map g) = (insertStable keepA x l).map g := by
  intro l
  induction l with
  | nil => simp [insertStable]
  | cons y ys ih =>
    by_cases hk : keepA y x = true
    · simp [insertStable, h, hk, ih]
    · simp [insertStable, h, hk]

theorem stableSort_map {α β : Type} (g : α → β) (keepA : α → α → Bool)
    (keepB : β → β → Bool) (h : ∀ a b, keepB (g a) (g b) = keepA a b) (l : List α) :
    stableSort keepB (l.map g) = (stableSort keepA l).map g := by
  suffices hgen : ∀ acc : List α,
      (l.map g).foldl (fun acc x => insertStable keepB x acc) (acc.map g) =
        (l.foldl (fun acc x => insertStable keepA x acc) acc).map g by
    simpa [stableSort] using hgen []
  induction l with
  | nil => intro acc; simp
  | cons x xs ih =>
    intro acc
    simp only [List.map_cons, List.foldl_cons]
    rw [insertStable_map g keepA keepB h x acc, ih]

theorem getD_congr_dflt {α : Type} :
    ∀ (l : List α) (n : Nat) (d1 d2 : α), n < l.length → l.getD n d1 = l.getD n d2 := by
  intro l
  induction l with
  | nil => intro n d1 d2 h; simp at h
  | cons x xs ih =>
    intro n d1 d2 h
    cases n with
    | zero => simp
    | succ m =>
      simp only [List.getD_cons_succ]
      exact ih m d1 d2 (by simpa using Nat.lt_of_succ_lt_succ h)

theorem bucket_hotels_spec :
    ∀ l : List AccommodationOption,
      (∀ h ∈ (bucket_hotels l).1, h.price_per_night < 100) ∧
      (∀ h ∈ (bucket_hotels l).2.1,
        100 ≤ h.price_per_night ∧ h.price_per_night < 200) ∧
      (∀ h ∈ (bucket_hotels l).2.2, 200 ≤ h.price_per_night) := by
  intro l
  induction l with
  | nil => simp [bucket_hotels]
  | cons h rest ih =>
    obtain ⟨h1, h2, h3⟩ := ih
    by_cases c1 : h.price_per_night < 100
    · refine ⟨?_, ?_, ?_⟩ <;> simp only [bucket_hotels, c1, if_pos, if_true]
      · intro a ha
        rcases List.mem_cons.mp ha with rfl | ha
        · exact c1
        · exact h1 a ha
      · exact h2
      · exact h3
    · by_cases c2 : h.price_per_night < 200
      · refine ⟨?_, ?_, ?_⟩ <;> simp only [bucket_hotels, c1, c2, if_false, if_true,
          if_neg, if_pos]
        · exact h1
        · intro a ha
          rcases List.mem_cons.mp ha with rfl | ha
          · exact ⟨le_of_not_lt c1, c2⟩
          · exact h2 a ha
        · exact h3
      · refine ⟨?_, ?_, ?_⟩ <;> simp only [bucket_hotels, c1, c2, if_neg, if_false]
        · exact h1
        · exact h2
        · intro a ha
          rcases List.mem_cons.mp ha with rfl | ha
          · exact le_of_not_lt c2
          · exact h3 a ha

theorem diverse_select_loop_le :
    ∀ (scored : List (AccommodationOption × ℚ)) (sel : List AccommodationOption)
      (ts : List String) (low mid high mr : Nat), sel.length ≤ mr →
      (diverse_select_loop scored sel ts low mid high mr).length ≤ mr := by
  intro scored
  induction scored with
  | nil => intro sel ts low mid high mr hle; simpa [diverse_select_loop] using hle
  | cons p rest ih =>
    intro sel ts low mid high mr hle
    obtain ⟨hotel, score⟩ := p
    rw [diverse_select_loop]
    dsimp only
    split
    · exact hle
    · rename_i hlt
      have hlen2 : (sel ++ [hotel]).length ≤ mr := by
        have : sel.length < mr := Nat.lt_of_not_le (by simpa using hlt)
        simp only [List.length_append, List.length_cons, List.length_nil]
        omega
      repeat' split
      all_goals
        first
          | exact ih _ _ _ _ _ _ hlen2
          | exact ih _ _ _ _ _ _ hle

theorem diverse_fill_loop_le :
    ∀ (scored : List (AccommodationOption × ℚ)) (sel : List AccommodationOption)
      (r : Nat), 1 ≤ r →
      (diverse_fill_loop scored sel r).length ≤ sel.length + r := by
  intro scored
  induction scored with
  | nil => intro sel r _; simp [diverse_fill_loop]
  | cons p rest ih =>
    intro sel r hr
    obtain ⟨hotel, score⟩ := p
    rw [diverse_fill_loop]
    dsimp only
    split
    · exact (ih sel r hr).trans (le_refl _)
    · split
      · rename_i hz
        simp only [List.length_append, List.length_cons, List.length_nil]
        omega
      · rename_i hz
        have h1 : 1 ≤ r - 1 := by omega
        have := ih (sel ++ [hotel]) (r - 1) h1
        simp only [List.length_append, List.length_cons, List.length_nil] at this
        omega

theorem select_diverse_hotels_le (scored : List (AccommodationOption × ℚ)) (mr : Nat) :
    (select_diverse_hotels scored mr).length ≤ mr := by
  unfold select_diverse_hotels
  have hsel := diverse_select_loop_le scored [] [] 0 0 0 mr (by simp)
  dsimp only
  split
  · rename_i hrem
    have := diverse_fill_loop_le scored (diverse_select_loop scored [] [] 0 0 0 mr)
      (mr - (diverse_select_loop scored [] [] 0 0 0 mr).length) (by omega)
    omega
  · exact hsel

/-- Claim C3: for every flight pool and every specified (truthy) budget, the
budget filter of the Dual Optimizer keeps exactly the flights whose total
price is at most 0.4 times the budget, and when every flight exceeds that
threshold `_optimize_flights` returns the empty pool instead of ignoring the
budget. -/
theorem flight_budget_filter_exact (flights : List FlightOption) (b : ℚ) (hb : b ≠ 0) :
    (∀ f, f ∈ budget_filter_flights flights b ↔
      f ∈ flights ∧ f.total_price ≤ 0.4 * b) ∧
    ((∀ f ∈ flights, 0.4 * b < f.total_price) →
      optimize_flights flights (some b) = []) := by
  constructor
  · intro f
    simp only [budget_filter_flights, List.mem_filter, decide_eq_true_eq,
      mul_comm b (0.4 : ℚ)]
  · intro hall
    have hfil : budget_filter_flights flights b = [] := by
      simp only [budget_filter_flights]
      rw [List.filter_eq_nil_iff]
      intro f hf
      simp only [decide_eq_true_eq, not_le]
      rw [mul_comm]
      exact hall f hf
    by_cases hfe : flights.isEmpty
    · simp [optimize_flights, hfe]
    · simp [optimize_flights, hfe, hb, hfil]

/-- Concrete witness for claim C3: with budget 100 a flight at price 30 is
kept, and a pool whose only flight costs 50 is emptied. -/
theorem flight_budget_filter_exact_witness :
    ((100 : ℚ) ≠ 0 ∧
      (mkFlight 30 100 0 ∈ budget_filter_flights [mkFlight 30 100 0, mkFlight 50 100 0] 100 ↔
        mkFlight 30 100 0 ∈ [mkFlight 30 100 0, mkFlight 50 100 0] ∧
          (mkFlight 30 100 0).total_price ≤ 0.4 * 100)) ∧
    optimize_flights [mkFlight 50 100 0] (some 100) = [] := by
  constructor
  · exact ⟨by norm_num,
      (flight_budget_filter_exact [mkFlight 30 100 0, mkFlight 50 100 0] 100
        (by norm_num)).1 _⟩
  · refine (flight_budget_filter_exact [mkFlight 50 100 0] 100 (by norm_num)).2 ?_
    intro f hf
    simp only [List.mem_singleton] at hf
    subst hf
    norm_num [mkFlight, dfltFlight]

theorem diversity_take_counts (sorted : List AccommodationOption) :
    (diversity_take sorted).countP (fun h => decide (h.price_per_night < 100)) ≤ 4 ∧
    (diversity_take sorted).countP
        (fun h => decide (100 ≤ h.price_per_night ∧ h.price_per_night < 200)) ≤ 4 ∧
    (diversity_take sorted).countP (fun h => decide (200 ≤ h.price_per_night)) ≤ 2 ∧
    (diversity_take sorted).length ≤ 15 := by
  obtain ⟨blow, bmid, bhigh⟩ := bucket_hotels_spec sorted
  have hcount : ∀ (p : AccommodationOption → Bool),
      (diversity_take sorted).countP p ≤
        ((bucket_hotels sorted).1.take 4).countP p +
          ((bucket_hotels sorted).2.1.take 4).countP p +
          ((bucket_hotels sorted).2.2.take 2).countP p := by
    intro p
    have h1 := (List.take_sublist 15
      ((bucket_hotels sorted).1.take 4 ++ (bucket_hotels sorted).2.1.take 4 ++
        (bucket_hotels sorted).2.2.take 2)).countP_le p
    simpa [diversity_take, List.countP_append, Nat.add_assoc] using h1
  refine ⟨?_, ?_, ?_, ?_⟩
  · refine le_trans (hcount _) ?_
    have e2 : ((bucket_hotels sorted).2.1.take 4).countP
        (fun h => decide (h.price_per_night < 100)) = 0 := by
      rw [List.countP_eq_zero]
      intro a ha
      have h := bmid a ((List.take_sublist 4 _).subset ha)
      simp only [decide_eq_true_eq, not_lt]
      linarith [h.1]
    have e3 : ((bucket_hotels sorted).2.2.take 2).countP
        (fun h => decide (h.price_per_night < 100)) = 0 := by
      rw [List.countP_eq_zero]
      intro a ha
      have h := bhigh a ((List.take_sublist 2 _).subset ha)
      simp only [decide_eq_true_eq, not_lt]
      linarith
    have e1 : ((bucket_hotels sorted).1.take 4).countP
        (fun h => decide (h.price_per_night < 100)) ≤ 4 :=
      le_trans (List.countP_le_length _) (by
        simpa using List.length_take_le 4 (bucket_hotels sorted).1)
    omega
  · refine le_trans (hcount _) ?_
    have e1 : ((bucket_hotels sorted).1.take 4).countP
        (fun h => decide (100 ≤ h.price_per_night ∧ h.price_per_night < 200)) = 0 := by
      rw [List.countP_eq_zero]
      intro a ha
      have h := blow a ((List.take_sublist 4 _).subset ha)
      simp only [decide_eq_true_eq, not_and]
      intro hle
      linarith
    have e3 : ((bucket_hotels sorted).2.2.take 2).countP
        (fun h => decide (100 ≤ h.price_per_night ∧ h.price_per_night < 200)) = 0 := by
      rw [List.countP_eq_zero]
      intro a ha
      have h := bhigh a ((List.take_sublist 2 _).subset ha)
      simp only [decide_eq_true_eq, not_and, not_lt]
      intro hle
      linarith
    have e2 : ((bucket_hotels sorted).2.1.take 4).countP
        (fun h => decide (100 ≤ h.price_per_night ∧ h.price_per_night < 200)) ≤ 4 :=
      le_trans (List.countP_le_length _) (by
        simpa using List.length_take_le 4 (bucket_hotels sorted).2.1)
    omega
  · refine le_trans (hcount _) ?_
    have e1 : ((bucket_hotels sorted).1.take 4).countP
        (fun h => decide (200 ≤ h.price_per_night)) = 0 := by
      rw [List.countP_eq_zero]
      intro a ha
      have h := blow a ((List.take_sublist 4 _).subset ha)
      simp only [decide_eq_true_eq, not_le]
      linarith
    have e2 : ((bucket_hotels sorted).2.1.take 4).countP
        (fun h => decide (200 ≤ h.price_per_night)) = 0 := by
      rw [List.countP_eq_zero]
      intro a ha
      have h := bmid a ((List.take_sublist 4 _).subset ha)
      simp only [decide_eq_true_eq, not_le]
      linarith [h.2]
    have e3 : ((bucket_hotels sorted).2.2.take 2).countP
        (fun h => decide (200 ≤ h.price_per_night)) ≤ 2 :=
      le_trans (List.countP_le_length _) (by
        simpa using List.length_take_le 2 (bucket_hotels sorted).2.2)
    omega
  · simpa [diversity_take] using List.length_take_le 15
      ((bucket_hotels sorted).1.take 4 ++ (bucket_hotels sorted).2.1.take 4 ++
        (bucket_hotels sorted).2.2.take 2)

/-- Claim C8: the Dual Optimizer lodging selection returns at most 4 hotels
priced under 100 per night, at most 4 priced in [100, 200), at most 2 priced
at 200 or more, and at most 15 in total; and the Preference Re-ranker diverse
selection returns at most 12 lodgings. -/
theorem lodging_diversity_caps :
    (∀ (hotels : List AccommodationOption) (budget : Option ℚ) (style : String),
      (optimize_hotels hotels budget style).countP
          (fun h => decide (h.price_per_night < 100)) ≤ 4 ∧
      (optimize_hotels hotels budget style).countP
          (fun h => decide (100 ≤ h.price_per_night ∧ h.price_per_night < 200)) ≤ 4 ∧
      (optimize_hotels hotels budget style).countP
          (fun h => decide (200 ≤ h.price_per_night)) ≤ 2 ∧
      (optimize_hotels hotels budget style).length ≤ 15) ∧
    (∀ scored : List (AccommodationOption × ℚ),
      (select_diverse_hotels scored).length ≤ 12) := by
  constructor
  · intro hotels budget style
    by_cases hne : hotels.isEmpty
    · simp [optimize_hotels, hne]
    · rw [optimize_hotels.eq_def, if_neg (by simpa using hne)]
      dsimp only
      exact diversity_take_counts _
  · intro scored
    exact select_diverse_hotels_le scored 12

theorem pyMax_map_mul (c : ℚ) (hc : 0 ≤ c) (l : List ℚ) :
    pyMax (l.map (fun q => c * q)) = c * pyMax l := by
  cases l with
  | nil => simp [pyMax]
  | cons x xs =>
    simp only [pyMax, List.map_cons]
    induction xs generalizing x with
    | nil => simp
    | cons y ys ih =>
      simp only [List.map_cons, List.foldl_cons]
      rw [← mul_max_of_nonneg _ _ hc]
      exact ih (max x y)

theorem score_flight_scale (c : ℚ) (hc : 0 < c) (flights : List FlightOption)
    (f : FlightOption) :
    score_flight (flights.map (scale_price c)) (scale_price c f) =
      score_flight flights f := by
  have hprice : (flights.map (scale_price c)).map (fun g => g.total_price) =
      (flights.map (fun g => g.total_price)).map (fun q => c * q) := by
    simp [List.map_map, scale_price, Function.comp]
  have hdur : (flights.map (scale_price c)).map
      (fun g => (g.total_duration_minutes : ℚ)) =
      flights.map (fun g => (g.total_duration_minutes : ℚ)) := by
    simp [List.map_map, scale_price, Function.comp]
  unfold score_flight
  rw [hprice, hdur, pyMax_map_mul c hc.le]
  have hfrac : (scale_price c f).total_price /
      (c * pyMax (flights.map (fun g => g.total_price))) =
      f.total_price / pyMax (flights.map (fun g => g.total_price)) := by
    by_cases hm : pyMax (flights.map (fun g => g.total_price)) = 0
    · simp [scale_price, hm]
    · simpa [scale_price] using
        mul_div_mul_left f.total_price (pyMax (flights.map (fun g => g.total_price)))
          (ne_of_gt hc)
  rw [hfrac]
  simp [scale_price]

/-- Claim C9: multiplying every flight price by a positive constant leaves the
Dual Optimizer flight ranking unchanged: the scored, stability-sorted,
truncated pool is the pointwise-scaled version of the unscaled one. -/
theorem rank_flights_scale_invariant (flights : List FlightOption) (c : ℚ) (hc : 0 < c) :
    rank_flights (flights.map (scale_price c)) =
      (rank_flights flights).map (scale_price c) := by
  unfold rank_flights
  dsimp only
  have h1 : (flights.map (scale_price c)).map
      (fun f => (f, score_flight (flights.map (scale_price c)) f)) =
      (flights.map (fun f => (f, score_flight flights f))).map
        (Prod.map (scale_price c) id) := by
    rw [List.map_map, List.map_map]
    apply List.map_congr_left
    intro f hf
    simp only [Function.comp_apply, Prod.map_apply, id_eq]
    exact Prod.ext rfl (score_flight_scale c hc flights f)
  rw [h1]
  have h2 : sortDescBy (fun p : FlightOption × ℚ => p.2)
      ((flights.map (fun f => (f, score_flight flights f))).map
        (Prod.map (scale_price c) id)) =
      (sortDescBy (fun p : FlightOption × ℚ => p.2)
        (flights.map (fun f => (f, score_flight flights f)))).map
        (Prod.map (scale_price c) id) := by
    unfold sortDescBy
    exact stableSort_map (Prod.map (scale_price c) id) _ _ (fun a b => rfl) _
  rw [h2, ← List.map_take, List.map_map, List.map_map]
  rfl

/-- Concrete witness for claim C9 at scale factor 2. -/
theorem rank_flights_scale_invariant_witness :
    (0 : ℚ) < 2 ∧
      rank_flights ([mkFlight 100 300 0, mkFlight 80 400 1].map (scale_price 2)) =
        (rank_flights [mkFlight 100 300 0, mkFlight 80 400 1]).map (scale_price 2) :=
  ⟨by norm_num,
    rank_flights_scale_invariant [mkFlight 100 300 0, mkFlight 80 400 1] 2 (by norm_num)⟩

/-- Claim C6, divergence witness: in the pool `cexStopsPool` the 4-stop flight
(price and duration both at the pool maximum) receives the unclamped score
`0.2 · (1 − 4/3) = −1/15`, whereas the specified formula with the stops
component clamped at zero gives `0`; the code thus contradicts both the spec
sentence and its own inline comment. -/
theorem stops_score_unclamped :
    score_flight cexStopsPool (mkFlight 100 600 4) = -(1 / 15) ∧
    (0.5 : ℚ) * (1 - 100 / 100) + 0.3 * (1 - 600 / 600) +
      0.2 * (max (1 - (4 : ℚ) / 3) 0) = 0 ∧
    score_flight cexStopsPool (mkFlight 100 600 4) ≠
      (0.5 : ℚ) * (1 - 100 / 100) + 0.3 * (1 - 600 / 600) +
        0.2 * (max (1 - (4 : ℚ) / 3) 0) := by
  refine ⟨?_, ?_, ?_⟩ <;>
    norm_num [score_flight, cexStopsPool, mkFlight, dfltFlight, pyMax]

/-- Claim C2: an exception in one of the two concurrent search branches never
escapes the Search Orchestrator: the failing branch contributes an empty pool
and an error string, the sibling branch result does not depend on the other
branch outcome, and the node always completes its step for every pair of
branch outcomes. -/
theorem search_branch_isolation (s : AgentState) (intent : TravelIntent)
    (fo fo' : Except String (List FlightOption))
    (ho ho' : Except String (List AccommodationOption))
    (hs : s.parsed_intent = some intent) :
    (∀ e, fo = .error e → (search_node_model fo ho s).flight_options = [] ∧
      ("Flight search error: " ++ e) ∈ (search_node_model fo ho s).errors) ∧
    (∀ e, ho = .error e → (search_node_model fo ho s).accommodation_options = [] ∧
      ("Hotel search error: " ++ e) ∈ (search_node_model fo ho s).errors) ∧
    (search_node_model fo ho s).accommodation_options =
      (search_node_model fo' ho s).accommodation_options ∧
    (search_node_model fo ho s).flight_options =
      (search_node_model fo ho' s).flight_options ∧
    (search_node_model fo ho s).current_step = "search_complete" := by
  refine ⟨?_, ?_, ?_, ?_, ?_⟩
  · rintro e rfl
    cases ho <;> simp [search_node_model, hs, optimize_flights]
  · rintro e rfl
    cases fo <;> simp [search_node_model, hs, optimize_hotels]
  · cases fo <;> cases fo' <;> cases ho <;> simp [search_node_model, hs]
  · cases ho <;> cases ho' <;> cases fo <;> simp [search_node_model, hs]
  · cases fo <;> cases ho <;> simp [search_node_model, hs]

/-- Concrete witness for claim C2: a raising flight branch next to a
succeeding hotel branch. -/
theorem search_branch_isolation_witness :
    ({ initial_state "req" none with parsed_intent := some exIntent
        : AgentState }).parsed_intent = some exIntent ∧
    (search_node_model (.error "boom") (.ok [])
      { initial_state "req" none with parsed_intent := some exIntent }).flight_options = [] ∧
    ("Flight search error: " ++ "boom") ∈
      (search_node_model (.error "boom") (.ok [])
        { initial_state "req" none with parsed_intent := some exIntent }).errors := by
  have h := (search_branch_isolation
    { initial_state "req" none with parsed_intent := some exIntent }
    exIntent (.error "boom") (.ok []) (.ok []) (.ok []) rfl).1 "boom" rfl
  exact ⟨rfl, h.1, h.2⟩

/-- Claim C1: when the parsed request is absent, or has both destination and
budget absent (falsy), the pipeline ends at the post-intent gate: the result
has `success = false`, no itineraries and a non-empty error list, and is
independent of the provider oracles (no provider call is made); when the
request is present with destination or budget present, the gate says
continue. -/
theorem intent_gate_short_circuit
    (parse_outcome : Except String TravelIntent)
    (fo fo' : Except String (List FlightOption))
    (ho ho' : Except String (List AccommodationOption))
    (msg : String) (uid : Option String)
    (hbad : match parse_outcome with
      | .error _ => True
      | .ok intent => truthyStr intent.destination = false ∧
          truthyQ intent.total_budget = false) :
    (run_workflow parse_outcome fo ho msg uid).success = false ∧
    (run_workflow parse_outcome fo ho msg uid).itineraries = [] ∧
    (run_workflow parse_outcome fo ho msg uid).errors ≠ [] ∧
    run_workflow parse_outcome fo ho msg uid = run_workflow parse_outcome fo' ho' msg uid ∧
    (∀ (s : AgentState) (intent : TravelIntent),
      truthyStr intent.destination = true ∨ truthyQ intent.total_budget = true →
      (should_continue_after_intent (parse_intent_node (.ok intent) s)).1 = "continue") := by
  have hcont : ∀ (s : AgentState) (intent : TravelIntent),
      truthyStr intent.destination = true ∨ truthyQ intent.total_budget = true →
      (should_continue_after_intent (parse_intent_node (.ok intent) s)).1 = "continue" := by
    intro s intent h
    rcases h with h | h <;> simp [should_continue_after_intent, parse_intent_node, h]
  cases parse_outcome with
  | error e =>
    refine ⟨?_, ?_, ?_, ?_, hcont⟩ <;>
      simp [run_workflow, parse_intent_node, should_continue_after_intent, initial_state]
  | ok intent =>
    obtain ⟨hd, hb⟩ := hbad
    refine ⟨?_, ?_, ?_, ?_, hcont⟩ <;>
      simp [run_workflow, parse_intent_node, should_continue_after_intent,
        initial_state, hd, hb]

/-- Concrete witness for claim C1: a parsed request with neither destination
nor budget ends the run with a failure result and no provider influence. -/
theorem intent_gate_short_circuit_witness :
    (run_workflow (.ok exIntentBare) (.ok []) (.ok []) "plan a trip" none).success = false ∧
    (run_workflow (.ok exIntentBare) (.ok []) (.ok []) "plan a trip" none).itineraries = [] ∧
    (run_workflow (.ok exIntentBare) (.ok []) (.ok []) "plan a trip" none).errors ≠ [] ∧
    run_workflow (.ok exIntentBare) (.ok []) (.ok []) "plan a trip" none =
      run_workflow (.ok exIntentBare) (.error "flights down") (.error "hotels down")
        "plan a trip" none := by
  have h := intent_gate_short_circuit (.ok exIntentBare) (.ok []) (.error "flights down")
    (.ok []) (.error "hotels down") "plan a trip" none (by exact ⟨rfl, rfl⟩)
  exact ⟨h.1, h.2.1, h.2.2.1, h.2.2.2.1⟩

/-- Claim C5, amended: every synthesized itinerary has flight cost equal to
the selected flight price, lodging cost the sum of the selected lodging
totals, zero activities cost, food cost `duration_days · rate · (adults +
children)` — the code excludes infants from the traveler count — with style
rates 40/60/100, and a total that is exactly the sum of the four components. -/
theorem itinerary_cost_components (intent : TravelIntent) (d : Int)
    (fp : List FlightOption) (hp : List AccommodationOption)
    (hd : intent.duration_days = some d) (hd0 : d ≠ 0) :
    (∀ it, create_budget_itinerary intent fp hp = some it →
      itinerary_cost_spec intent d 40 it) ∧
    (∀ it, create_balanced_itinerary intent fp hp = some it →
      itinerary_cost_spec intent d 60 it) ∧
    (∀ it, create_premium_itinerary intent fp hp = some it →
      itinerary_cost_spec intent d 100 it) := by
  refine ⟨?_, ?_, ?_⟩
  · intro it h
    rcases hfs : sortAscBy (fun f => f.total_price) fp with _ | ⟨f0, fs⟩
    · simp [create_budget_itinerary, hfs] at h
    · rcases hhs : sortAscBy (fun a => a.price_per_night) hp with _ | ⟨h0, hs0⟩
      · simp [create_budget_itinerary, hfs, hhs] at h
      · simp only [create_budget_itinerary, hfs, hhs, itinerary_costs,
          Option.some.injEq] at h
        subst h
        simp [itinerary_cost_spec, pyOrInt, hd, hd0]
  · intro it h
    by_cases hz : fp.any (fun f => decide ((24 : ℚ) - (f.number_of_stops : ℚ) * 8 = 0))
    · rw [create_balanced_itinerary, if_pos (by simpa using hz)] at h
      exact absurd h (by simp)
    · rcases hfs : sortAscBy balanced_flight_key fp with _ | ⟨f0, fs⟩
      · simp [create_balanced_itinerary, hz, hfs] at h
      · rcases hhs : sortAscBy (fun a => a.price_per_night) hp with _ | ⟨h0, hs0⟩
        · simp [create_balanced_itinerary, hz, hfs, hhs] at h
        · simp only [create_balanced_itinerary, hz, if_false, Bool.false_eq_true,
            hfs, hhs, itinerary_costs, Option.some.injEq] at h
          subst h
          simp [itinerary_cost_spec, pyOrInt, hd, hd0]
  · intro it h
    rcases hfs : sortAscBy
        (fun f => (toLex ((f.number_of_stops, f.total_duration_minutes) : Int × Int))) fp
      with _ | ⟨f0, fs⟩
    · simp [create_premium_itinerary, hfs] at h
    · rcases hhs : sortDescBy (fun a => a.price_per_night) hp with _ | ⟨h0, hs0⟩
      · simp [create_premium_itinerary, hfs, hhs] at h
      · simp only [create_premium_itinerary, hfs, hhs, itinerary_costs,
          Option.some.injEq] at h
        subst h
        simp [itinerary_cost_spec, pyOrInt, hd, hd0]

/-- Concrete witness for the amended claim C5, on the sample request. -/
theorem itinerary_cost_components_witness :
    exIntent.duration_days = some 10 ∧ (10 : Int) ≠ 0 ∧
    (∀ it, create_budget_itinerary exIntent [mkFlight 100 300 0] [mkHotel "H" 50 350] =
      some it → itinerary_cost_spec exIntent 10 40 it) := by
  exact ⟨rfl, by norm_num,
    (itinerary_cost_components exIntent 10 [mkFlight 100 300 0] [mkHotel "H" 50 350]
      rfl (by norm_num)).1⟩

/-- Claim C5, counterexample to the claim as stated: with 2 adults, 0 children
and 1 infant over 7 days, the budget itinerary food cost is 7·40·2 = 560, not
7·40·(2+0+1) = 840 as "total traveler count" would require — infants are
excluded from the food-cost traveler count. -/
theorem food_cost_excludes_infants :
    (create_budget_itinerary exIntentInfant [mkFlight 100 300 0] [mkHotel "H" 50 350]).map
      (fun it => it.estimated_food_cost) = some 560 ∧
    exIntentInfant.num_adults = 2 ∧ exIntentInfant.num_children = 0 ∧
    exIntentInfant.num_infants = 1 ∧ exIntentInfant.duration_days = some 7 ∧
    (560 : ℚ) ≠ 7 * 40 * ((2 : ℚ) + 0 + 1) := by
  refine ⟨?_, rfl, rfl, rfl, rfl, by norm_num⟩
  norm_num [create_budget_itinerary, sortAscBy, stableSort, insertStable,
    itinerary_costs, pyOrInt, exIntentInfant, exIntent, mkFlight, mkHotel,
    dfltFlight, dfltHotel]

/-- Claim C4: the balanced itinerary picks the middle element (index
`length / 2`) of the pool stably sorted ascending by
`price / (24 − stops · 8)` as its flight, and the middle-priced lodging by
nightly rate, except that a pool of exactly two lodgings yields the cheaper
one; the sorted lists are genuine sorts (permutations, ordered by the key). -/
theorem balanced_selection_rule (intent : TravelIntent) (fp : List FlightOption)
    (hp : List AccommodationOption)
    (hden : ∀ f ∈ fp, (24 : ℚ) - (f.number_of_stops : ℚ) * 8 ≠ 0)
    (hfp : fp ≠ []) (hhp : hp ≠ []) :
    (sortAscBy balanced_flight_key fp).Perm fp ∧
    (sortAscBy balanced_flight_key fp).Pairwise
      (fun a b => balanced_flight_key a ≤ balanced_flight_key b) ∧
    (create_balanced_itinerary intent fp hp).map (fun it => it.flights) =
      some ((sortAscBy balanced_flight_key fp).getD (fp.length / 2) dfltFlight) ∧
    (sortAscBy (fun h => h.price_per_night) hp).Perm hp ∧
    (sortAscBy (fun h => h.price_per_night) hp).Pairwise
      (fun a b => a.price_per_night ≤ b.price_per_night) ∧
    (create_balanced_itinerary intent fp hp).map (fun it => it.accommodations) =
      some [(sortAscBy (fun h => h.price_per_night) hp).getD
        (if hp.length = 2 then 0 else hp.length / 2) dfltHotel] ∧
    (hp.length = 2 → ∀ h2 ∈ hp,
      ((sortAscBy (fun h => h.price_per_night) hp).getD 0 dfltHotel).price_per_night ≤
        h2.price_per_night) := by
  have hpermF := sortAscBy_perm balanced_flight_key fp
  have hsortF := sortAscBy_pairwise balanced_flight_key fp
  have hpermH := sortAscBy_perm (fun h : AccommodationOption => h.price_per_night) hp
  have hsortH := sortAscBy_pairwise (fun h : AccommodationOption => h.price_per_night) hp
  have hlenF : (sortAscBy balanced_flight_key fp).length = fp.length := hpermF.length_eq
  have hlenH : (sortAscBy (fun h : AccommodationOption => h.price_per_night) hp).length =
    hp.length := hpermH.length_eq
  have hfplen : 0 < fp.length := List.length_pos.mpr hfp
  have hhplen : 0 < hp.length := List.length_pos.mpr hhp
  have hany : fp.any (fun f => decide ((24 : ℚ) - (f.number_of_stops : ℚ) * 8 = 0)) =
      false := by
    rw [List.any_eq_false]
    intro f hf
    simpa using hden f hf
  rcases hfs : sortAscBy balanced_flight_key fp with _ | ⟨f0, fs⟩
  · rw [hfs] at hlenF
    simp only [List.length_nil] at hlenF
    exfalso
    omega
  · rw [hfs] at hpermF hsortF hlenF
    rcases hhs : sortAscBy (fun h : AccommodationOption => h.price_per_night) hp
      with _ | ⟨h0, hs0⟩
    · rw [hhs] at hlenH
      simp only [List.length_nil] at hlenH
      exfalso
      omega
    · rw [hhs] at hpermH hsortH hlenH
      have hcreate : create_balanced_itinerary intent fp hp = some
        { title := "Balanced Option - " ++ pyStr intent.destination,
          summary := "The sweet spot between comfort and adventure. " ++
            toString (pyOrInt intent.duration_days 7) ++
            " days of well-paced exploration with quality accommodations.",
          style_tag := "Balanced Family",
          flights := (f0 :: fs).getD ((f0 :: fs).length / 2) f0,
          accommodations := [(h0 :: hs0).getD
            (if (h0 :: hs0).length = 2 then 0 else (h0 :: hs0).length / 2) h0],
          daily_plans := [],
          flight_cost := ((f0 :: fs).getD ((f0 :: fs).length / 2) f0).total_price,
          accommodation_cost := (([(h0 :: hs0).getD
            (if (h0 :: hs0).length = 2 then 0 else (h0 :: hs0).length / 2) h0]).map
              (fun h => h.total_price)).sum,
          activities_cost := 0,
          estimated_food_cost := (pyOrInt intent.duration_days 7 : ℚ) * 60 *
            ((intent.num_adults : ℚ) + (intent.num_children : ℚ)),
          total_cost := ((f0 :: fs).getD ((f0 :: fs).length / 2) f0).total_price +
            (([(h0 :: hs0).getD
              (if (h0 :: hs0).length = 2 then 0 else (h0 :: hs0).length / 2) h0]).map
                (fun h => h.total_price)).sum + 0 +
            (pyOrInt intent.duration_days 7 : ℚ) * 60 *
              ((intent.num_adults : ℚ) + (intent.num_children : ℚ)),
          currency := "EUR",
          why_this_option := "This itinerary strikes the perfect balance.",
          tradeoffs := "Mid-range pricing means good value without extremes.",
          taste_score := none } := by
        simp only [create_balanced_itinerary, hany, Bool.false_eq_true, if_false,
          hfs, hhs, itinerary_costs]
      refine ⟨hpermF, hsortF, ?_, hpermH, hsortH, ?_, ?_⟩
      · rw [hcreate]
        simp only [Option.map]
        congr 1
        rw [hlenF]
        exact getD_congr_dflt _ _ _ _ (by rw [hlenF]; omega)
      · rw [hcreate]
        simp only [Option.map]
        congr 2
        rw [hlenH]
        exact getD_congr_dflt _ _ _ _ (by rw [hlenH]; split <;> omega)
      · intro h2len h2 hmem
        have hmem2 : h2 ∈ h0 :: hs0 := hpermH.mem_iff.mpr hmem
        show ((h0 :: hs0).getD 0 dfltHotel).price_per_night ≤ h2.price_per_night
        rcases List.mem_cons.mp hmem2 with rfl | hmem2
        · exact le_refl _
        · exact (List.pairwise_cons.mp hsortH).1 h2 hmem2

/-- Concrete witness for claim C4: with exactly two lodgings priced 220 and
80 per night, the balanced itinerary selects the 80 option. -/
theorem balanced_selection_rule_witness :
    (∀ f ∈ [mkFlight 100 300 0], (24 : ℚ) - (f.number_of_stops : ℚ) * 8 ≠ 0) ∧
    (create_balanced_itinerary exIntent [mkFlight 100 300 0]
      [mkHotel "A" 220 1540, mkHotel "B" 80 560]).map (fun it => it.accommodations) =
      some [mkHotel "B" 80 560] ∧
    (∀ h2 ∈ [mkHotel "A" 220 1540, mkHotel "B" 80 560],
      (mkHotel "B" 80 560).price_per_night ≤ h2.price_per_night) := by
  have hden : ∀ f ∈ [mkFlight 100 300 0], (24 : ℚ) - (f.number_of_stops : ℚ) * 8 ≠ 0 := by
    intro f hf
    simp only [List.mem_singleton] at hf
    subst hf
    norm_num [mkFlight, dfltFlight]
  have h := balanced_selection_rule exIntent [mkFlight 100 300 0]
    [mkHotel "A" 220 1540, mkHotel "B" 80 560] hden (by simp) (by simp)
  refine ⟨hden, ?_, by decide⟩
  rw [h.2.2.2.2.2.1]
  decide

theorem try_routes_eq_first_nonempty
    (oracle : String → String → Except String (List FlightOption)) :
    ∀ rs : List (String × String),
      try_routes oracle rs =
        first_nonempty (rs.map (fun r => search_route oracle r.1 r.2)) := by
  intro rs
  induction rs with
  | nil => rfl
  | cons r rest ih =>
    by_cases h : (search_route oracle r.1 r.2).isEmpty <;>
      simp [try_routes, first_nonempty, h, ih]

theorem first_nonempty_append {α : Type} (L M : List (List α)) :
    first_nonempty (L ++ M) =
      if (first_nonempty L).isEmpty then first_nonempty M else first_nonempty L := by
  induction L with
  | nil => simp [first_nonempty]
  | cons x L ih =>
    simp only [List.cons_append, first_nonempty]
    cases hx : x.isEmpty
    · simp [hx]
    · simp [hx, ih]

theorem first_nonempty_eq_nil {α : Type} (L : List (List α)) (h : ∀ x ∈ L, x = []) :
    first_nonempty L = [] := by
  induction L with
  | nil => rfl
  | cons x rest ih =>
    have hx : x = [] := h x (List.mem_cons_self x rest)
    simp [first_nonempty, hx]
    exact ih (fun y hy => h y (List.mem_cons_of_mem x hy))

theorem cascade_eq_first_nonempty {α : Type} (r0 : List α) (A B C : List (List α)) :
    (if ¬ r0.isEmpty then r0 else
      if ¬ (first_nonempty A).isEmpty then first_nonempty A else
        if ¬ (first_nonempty B).isEmpty then first_nonempty B else first_nonempty C) =
      first_nonempty (r0 :: (A ++ B ++ C)) := by
  cases h0 : r0.isEmpty <;>
    cases hA : (first_nonempty A).isEmpty <;>
      cases hB : (first_nonempty B).isEmpty <;>
        simp [first_nonempty, first_nonempty_append, h0, hA, hB]

theorem amadeus_search_flights_eq
    (oracle : String → String → Except String (List FlightOption))
    (intent : TravelIntent) (o d : String) (dep ret : Int)
    (ho : intent.origin = some o) (hd : intent.destination = some d)
    (hoe : o ≠ "") (hde : d ≠ "")
    (hdep : intent.departure_date = some dep) (hret : intent.return_date = some ret) :
    amadeus_search_flights oracle intent =
      first_nonempty ((amadeus_route_plan intent).map
        (fun r => search_route oracle r.1 r.2)) := by
  rw [amadeus_search_flights.eq_def]
  simp only [ho, hd, hdep, hret, hoe, hde, or_self, if_false, false_or, or_false,
    if_neg (by simp [hoe, hde] : ¬(o = "" ∨ d = ""))]
  rw [amadeus_route_plan]
  simp only [ho, hd, Option.getD_some]
  rw [try_routes_eq_first_nonempty, try_routes_eq_first_nonempty,
    try_routes_eq_first_nonempty]
  rw [List.map_cons, List.map_append, List.map_append]
  exact cascade_eq_first_nonempty _ _ _ _

/-- Claim C7: SerpAPI is tried first and short-circuits Amadeus entirely when
it returns a non-empty pool; otherwise the Amadeus fallback tries the primary
route, then each alternative destination airport, then each alternative
origin, then the 2-by-2 cross product — in that order, first non-empty result
winning — and yields `[]` when every route attempt fails or is empty. -/
theorem flight_provider_fallback
    (serp : Except String (List FlightOption))
    (oracle oracle' : String → String → Except String (List FlightOption))
    (intent : TravelIntent) (o d : String) (dep ret : Int)
    (ho : intent.origin = some o) (hd : intent.destination = some d)
    (hoe : o ≠ "") (hde : d ≠ "")
    (hdep : intent.departure_date = some dep) (hret : intent.return_date = some ret) :
    (∀ l, serp = .ok l → l ≠ [] →
      search_flights_async serp oracle intent = l ∧
      search_flights_async serp oracle intent = search_flights_async serp oracle' intent) ∧
    ((match serp with
      | .ok l => l = []
      | .error _ => True) →
      search_flights_async serp oracle intent =
        first_nonempty ((amadeus_route_plan intent).map
          (fun r => search_route oracle r.1 r.2)) ∧
      ((∀ r ∈ amadeus_route_plan intent, search_route oracle r.1 r.2 = []) →
        search_flights_async serp oracle intent = [])) := by
  constructor
  · rintro l rfl hl
    have hne : l.isEmpty = false := by
      cases l with
      | nil => exact absurd rfl hl
      | cons a as => rfl
    constructor <;> simp [search_flights_async, hne]
  · intro hserp
    have hbase : search_flights_async serp oracle intent =
        amadeus_search_flights oracle intent := by
      cases serp with
      | ok l =>
        have : l = [] := hserp
        subst this
        rfl
      | error e => rfl
    have heq := amadeus_search_flights_eq oracle intent o d dep ret ho hd hoe hde hdep hret
    refine ⟨hbase.trans heq, ?_⟩
    intro hall
    rw [hbase, heq]
    apply first_nonempty_eq_nil
    intro x hx
    rcases List.mem_map.mp hx with ⟨r, hr, rfl⟩
    exact hall r hr

/-- Concrete witness for claim C7: SerpAPI comes back empty, the primary
route CPH to ROM is empty, and the first alternative destination airport FCO
has the offer that is returned. -/
theorem flight_provider_fallback_witness :
    exIntent.origin = some "Copenhagen" ∧ exIntent.destination = some "Rome" ∧
    search_flights_async (.ok []) cexOracle exIntent = [mkFlight 300 200 0] := by
  have h := (flight_provider_fallback (.ok []) cexOracle cexOracle exIntent
    "Copenhagen" "Rome" 100 110 rfl rfl (by decide) (by decide) rfl rfl).2 rfl
  refine ⟨rfl, rfl, ?_⟩
  rw [h.1]
  decide

/-- Claim C10, counterexample to the claim as stated: with every real
provider failing and no credentials configured, the lodging search returns
the non-empty mock set for both values of `use_mock` — the only knob the
caller has — so the caller cannot disable the last-resort mock fallback to
obtain an empty pool. -/
theorem mock_fallback_not_disableable :
    search_hotels cexNoKeys false (.error "hb down") (.error "amadeus down")
      (.error "booking down") cexRand exIntent 20 ≠ [] ∧
    search_hotels cexNoKeys true (.error "hb down") (.error "amadeus down")
      (.error "booking down") cexRand exIntent 20 ≠ [] := by
  have hlen : (generate_mock_hotels cexRand exIntent 20).length = 10 := by
    simp only [generate_mock_hotels, sortDescBy, stableSort_length, List.length_map,
      List.length_range, hotel_templates]
    rfl
  have hpos : generate_mock_hotels cexRand exIntent 20 ≠ [] := by
    intro hnil
    rw [hnil] at hlen
    simp at hlen
  constructor
  · have hrw : search_hotels cexNoKeys false (.error "hb down") (.error "amadeus down")
        (.error "booking down") cexRand exIntent 20 =
        generate_mock_hotels cexRand exIntent 20 := rfl
    rw [hrw]
    exact hpos
  · have hrw : search_hotels cexNoKeys true (.error "hb down") (.error "amadeus down")
        (.error "booking down") cexRand exIntent 20 =
        generate_mock_hotels cexRand exIntent 20 := rfl
    rw [hrw]
    exact hpos

/-- Claim C10, amended: mock data is returned immediately when the caller
requests mock mode (independently of the providers); otherwise the lodging
fallback order is Hotelbeds (skipped when unconfigured, exceptions and empty
results falling through), then Amadeus, then Booking.com when a RapidAPI key
exists (whose result — or mock data if it raises — is returned as is), and
mock data only when no hotel API is available; the caller cannot disable this
last-resort mock fallback. -/
theorem lodging_mock_last_resort (cfg : HotelServiceConfig)
    (hbO amO bkO : Except String (List AccommodationOption))
    (rand : Nat → Nat → ℚ) (intent : TravelIntent) (mr : Nat)
    (hdest : truthyStr intent.destination = true) :
    (∀ hbO' amO' bkO', search_hotels cfg true hbO amO bkO rand intent mr =
      generate_mock_hotels rand intent mr ∧
      search_hotels cfg true hbO amO bkO rand intent mr =
        search_hotels cfg true hbO' amO' bkO' rand intent mr) ∧
    (hotelbeds_step cfg hbO ≠ [] →
      search_hotels cfg false hbO amO bkO rand intent mr = hotelbeds_step cfg hbO) ∧
    (hotelbeds_step cfg hbO = [] → unwrap_or_empty amO ≠ [] →
      search_hotels cfg false hbO amO bkO rand intent mr = unwrap_or_empty amO) ∧
    (hotelbeds_step cfg hbO = [] → unwrap_or_empty amO = [] →
      truthyStr cfg.rapidapi_key = true →
      search_hotels cfg false hbO amO bkO rand intent mr =
        (match bkO with
         | .ok l => l
         | .error _ => generate_mock_hotels rand intent mr)) ∧
    (hotelbeds_step cfg hbO = [] → unwrap_or_empty amO = [] →
      truthyStr cfg.rapidapi_key = false →
      search_hotels cfg false hbO amO bkO rand intent mr =
        generate_mock_hotels rand intent mr) := by
  refine ⟨?_, ?_, ?_, ?_, ?_⟩
  · intro hbO' amO' bkO'
    constructor <;> simp [search_hotels, hdest]
  · intro hne
    have : (hotelbeds_step cfg hbO).isEmpty = false := by
      cases h : hotelbeds_step cfg hbO
      · exact absurd h hne
      · rfl
    simp [search_hotels, hdest, this]
  · intro hemp hne
    have hie : (unwrap_or_empty amO).isEmpty = false := by
      cases h : unwrap_or_empty amO
      · exact absurd h hne
      · rfl
    simp [search_hotels, hdest, hemp, hie]
  · intro hemp hamp hkey
    simp [search_hotels, hdest, hemp, hamp, hkey]
  · intro hemp hamp hkey
    simp [search_hotels, hdest, hemp, hamp, hkey]

/-- Concrete witness for the amended claim C10: with no credentials and both
real providers coming back empty, the mock set is returned. -/
theorem lodging_mock_last_resort_witness :
    truthyStr exIntent.destination = true ∧
    search_hotels cexNoKeys false (.ok []) (.ok []) (.ok []) cexRand exIntent 20 =
      generate_mock_hotels cexRand exIntent 20 := by
  refine ⟨by decide, ?_⟩
  exact (lodging_mock_last_resort cexNoKeys (.ok []) (.ok []) (.ok []) cexRand exIntent
    20 (by decide)).2.2.2.2 rfl rfl rfl

end Voyana
